import Mathlib

/-!
Verification of the pyMepps grid engine (`pymepps/grid/grid.py`,
`pymepps/grid/lonlat.py`, `pymepps/grid/curvilinear.py`) against its
natural-language specification.

The embedding is a shallow one:

* Python numbers on the grid paths are modelled by an arbitrary
  `LinearOrderedField` with a `FloorRing` (instantiated at `ℚ` for the
  decidable claims and at `ℝ` where the source does transcendental
  arithmetic: unit conversion through pi, the haversine distance).
  Exact field arithmetic stands in for floating point.
* `numpy` arrays are modelled by `NArr`: a shape together with the
  row-major flat list of entries.
* Python dictionaries (the grid descriptors) are modelled by
  insertion-ordered association lists over a small value universe `GVal`.
* Exceptions are modelled by `Except PyError`; each raise site keeps the
  exception class and message of the source.
* The vectorised numpy primitives used by the source (`np.arange`,
  `np.argsort`, advanced indexing, boolean masking, `np.meshgrid` +
  transpose, `np.unravel_index`) are embedded with their exact-arithmetic
  semantics on well-shaped inputs; the in-place loop
  `while np.any(lon > 180): lon[lon > 180] -= 360` acts independently on
  every entry and is embedded as the element-wise function `wrapLon`.
* `scipy.interpolate.griddata` and `mpl_toolkits.basemap.interp` are
  external collaborators (out of scope per the specification) and enter
  the embedding as function parameters.
-/

set_option maxHeartbeats 1000000

deriving instance DecidableEq for Except

/-- Python exception classes raised (or propagated) by the grid engine. -/
inductive PyError where
  | valueError (msg : String)
  | keyError (key : String)
  | indexError (msg : String)
  | typeError (msg : String)
  | axisError (msg : String)
  deriving DecidableEq, Repr

/-- Values stored in a grid-descriptor dictionary: numbers, strings and
flat numeric sequences. Python ints and floats are both `num`. -/
inductive GVal (α : Type) where
  | num (x : α)
  | str (s : String)
  | arr (xs : List α)
  deriving DecidableEq, Repr

/-- A Python dict with string keys, as an insertion-ordered association
list; only lookup/update/delete are needed by the grid code. -/
abbrev PyDict (α : Type) := List (String × GVal α)

/-- Dictionary lookup, `d[k]` as an `Option`. -/
def dictFind {α : Type} (d : PyDict α) (k : String) : Option (GVal α) :=
  (d.find? (fun p => p.1 == k)).map (·.2)

/-- Dictionary access `d[k]`; a missing key raises `KeyError` as in Python. -/
def dictGet {α : Type} (d : PyDict α) (k : String) : Except PyError (GVal α) :=
  match dictFind d k with
  | some v => .ok v
  | none => .error (.keyError k)

/-- Access `d[k]` expecting a number. -/
def dictGetNum {α : Type} (d : PyDict α) (k : String) : Except PyError α :=
  match dictGet d k with
  | .ok (.num x) => .ok x
  | .ok _ => .error (.typeError k)
  | .error e => .error e

/-- Access `d[k]` expecting a string. -/
def dictGetStr {α : Type} (d : PyDict α) (k : String) : Except PyError String :=
  match dictGet d k with
  | .ok (.str s) => .ok s
  | .ok _ => .error (.typeError k)
  | .error e => .error e

/-- Access `d[k]` expecting a flat numeric sequence. -/
def dictGetArr {α : Type} (d : PyDict α) (k : String) : Except PyError (List α) :=
  match dictGet d k with
  | .ok (.arr xs) => .ok xs
  | .ok _ => .error (.typeError k)
  | .error e => .error e

/-- Assignment `d[k] = v`: replace in place, or append a new key. -/
def dictSet {α : Type} (d : PyDict α) (k : String) (v : GVal α) : PyDict α :=
  if (d.find? (fun p => p.1 == k)).isSome then
    d.map (fun p => if p.1 == k then (k, v) else p)
  else
    d ++ [(k, v)]

/-- Deletion `d.pop(k, None)`. -/
def dictPop {α : Type} (d : PyDict α) (k : String) : PyDict α :=
  d.filter (fun p => ¬ p.1 == k)

/-- Dictionary merge `d.update(other)`: entries of `other` win. -/
def dictUpdate {α : Type} (d other : PyDict α) : PyDict α :=
  other.foldl (fun acc p => dictSet acc p.1 p.2) d

/-- Substring test on character lists (structural recursion so that the
kernel can evaluate it): does `s` start with `sub`. -/
def startsWithSeq : List Char → List Char → Bool
  | _, [] => true
  | [], _ :: _ => false
  | a :: as, b :: bs => a == b && startsWithSeq as bs

/-- Substring occurrence test on character lists. -/
def containsSeq : List Char → List Char → Bool
  | [], sub => sub.isEmpty
  | a :: as, sub => startsWithSeq (a :: as) sub || containsSeq as sub

/-- Python `sub in s` on strings. -/
def strContains (s sub : String) : Bool :=
  containsSeq s.toList sub.toList

/-- Python `s.lower()`. -/
def strLower (s : String) : String :=
  String.mk (s.toList.map Char.toLower)

/-- A numpy `ndarray`: the shape and the row-major flat entry list. -/
structure NArr (α : Type) where
  shape : List ℕ
  flat : List α
  deriving DecidableEq, Repr

/-- Number of dimensions of an array. -/
def NArr.ndim {α : Type} (a : NArr α) : ℕ := a.shape.length

/-- Entry `a[i, j]` of a 2-D array (row-major). -/
def NArr.mget {α : Type} [Zero α] (a : NArr α) (i j : ℕ) : α :=
  a.flat.getD (i * a.shape.getD 1 0 + j) 0

/-- Split a flat list into consecutive chunks of length `k` (the
row-major blocks of the trailing dimensions). Structural recursion on a
length bound keeps it kernel-reducible. -/
def chunksFuel {α : Type} : ℕ → ℕ → List α → List (List α)
  | 0, _, _ => []
  | _, _, [] => []
  | fuel + 1, k, l => l.take k :: chunksFuel fuel k (l.drop k)

/-- Split a flat list into consecutive chunks of length `k`. -/
def chunks {α : Type} (k : ℕ) (l : List α) : List (List α) :=
  if k = 0 then [] else chunksFuel l.length k l

/-- Boolean-mask selection `xs[mask]` along one axis. -/
def maskFilter {α : Type} (xs : List α) (mask : List Bool) : List α :=
  (mask.zip xs).filterMap (fun p => if p.1 then some p.2 else none)

/-- `data[..., mask]`: boolean mask over the last axis of an array. -/
def maskLastDim {α : Type} (a : NArr α) (mask : List Bool) : NArr α :=
  let w := a.shape.getD (a.ndim - 1) 0
  let blocks := chunks w a.flat
  { shape := a.shape.take (a.ndim - 1) ++ [mask.count true],
    flat := (blocks.map (fun b => maskFilter b mask)).flatten }

/-- `data[..., mask, :]`: boolean mask over the second-to-last axis. -/
def maskSecondLastDim {α : Type} (a : NArr α) (mask : List Bool) : NArr α :=
  let w := a.shape.getD (a.ndim - 1) 0
  let h := a.shape.getD (a.ndim - 2) 0
  let blocks := chunks (h * w) a.flat
  { shape := a.shape.take (a.ndim - 2) ++ [mask.count true, w],
    flat := (blocks.map (fun b => (maskFilter (chunks w b) mask).flatten)).flatten }

/-- `data[..., mask]` with a boolean mask spanning the trailing `k`
dimensions: numpy flattens those dimensions into a single axis holding
the selected points. -/
def maskTrailing {α : Type} (a : NArr α) (mask : List Bool) (k : ℕ) : NArr α :=
  let sz := (a.shape.drop (a.ndim - k)).prod
  let blocks := chunks sz a.flat
  { shape := a.shape.take (a.ndim - k) ++ [mask.count true],
    flat := (blocks.map (fun b => maskFilter b mask)).flatten }

section Field

variable {α : Type} [LinearOrderedField α] [FloorRing α]

/-- Exact-arithmetic semantics of `np.arange(start, stop, step)`:
`⌈(stop - start)/step⌉` evenly spaced values; a zero step raises. -/
def arange (start stop step : α) : Except PyError (List α) :=
  if step = 0 then .error (.valueError "arange: step must not be zero")
  else .ok ((List.range (⌈(stop - start) / step⌉).toNat).map
    (fun i : ℕ => start + (i : α) * step))

/-- `LonLatGrid._calc_single_dim` (lonlat.py:58-66): one axis from the
`first`/`size`/`inc` descriptor fields via `np.arange`. -/
def calc_single_dim (gd : PyDict α) (dim_name : String) : Except PyError (List α) := do
  let start ← dictGetNum gd (dim_name ++ "first")
  let steps ← dictGetNum gd (dim_name ++ "size")
  let width ← dictGetNum gd (dim_name ++ "inc")
  arange start (start + steps * width) width

/-- `LonLatGrid._construct_dim` (lonlat.py:68-69); also inherited by
`CurvilinearGrid`. -/
def construct_dim (gd : PyDict α) : Except PyError (List α × List α) := do
  let y ← calc_single_dim gd "y"
  let x ← calc_single_dim gd "x"
  .ok (y, x)

/-- The latitude mesh with `lat[i, j] = la[i]`: this is
`np.meshgrid(dim_lat, dim_lon)[0].transpose()` for evenly listed axes. -/
def mesh_lat (la lo : List α) : NArr α :=
  { shape := [la.length, lo.length],
    flat := (la.map (fun v => List.replicate lo.length v)).flatten }

/-- The longitude mesh with `lon[i, j] = lo[j]`: this is
`np.meshgrid(dim_lat, dim_lon)[1].transpose()`. -/
def mesh_lon (la lo : List α) : NArr α :=
  { shape := [la.length, lo.length],
    flat := (la.map (fun _ => lo)).flatten }

/-- The conversion table `known_units` (grid.py:44-47), parameterised by
the numeric value of `np.pi` (which is `Real.pi` at `α = ℝ`). -/
def known_units (piA : α) : List (String × (α → α)) :=
  [("deg", fun x => x), ("rad", fun x => x * 180 / piA)]

/-- The rule selected by `Grid.convert_to_deg` (grid.py:512-533): the
first table entry whose key is a substring of the lower-cased unit; no
match raises the source's `ValueError`. -/
def unit_rule (piA : α) (unit : String) : Except PyError (α → α) :=
  match (known_units piA).filter (fun ku => strContains (strLower unit) ku.1) with
  | [] => .error (.valueError
      ("There is no calculating rule for the given unit " ++ unit ++ " defined yet!"))
  | ku :: _ => .ok ku.2

/-- `Grid.convert_to_deg` applied element-wise to an axis (the source
applies the selected rule to the whole numpy array at once). -/
def convert_to_deg (piA : α) (field : List α) (unit : String) :
    Except PyError (List α) :=
  match unit_rule piA unit with
  | .ok f => .ok (field.map f)
  | .error e => .error e

/-- `LonLatGrid._calc_lat_lon` (lonlat.py:71-76): build both axes,
convert each to degrees by its declared unit, then
`np.meshgrid(dim_lat, dim_lon)` and transpose both results, giving
`lat[i, j] = dim_lat[i]` and `lon[i, j] = dim_lon[j]`. -/
def lonlat_calc_lat_lon (piA : α) (gd : PyDict α) :
    Except PyError (NArr α × NArr α) := do
  let dims ← construct_dim gd
  let yunits ← dictGetStr gd "yunits"
  let xunits ← dictGetStr gd "xunits"
  let dim_lat ← convert_to_deg piA dims.1 yunits
  let dim_lon ← convert_to_deg piA dims.2 xunits
  .ok (mesh_lat dim_lat dim_lon, mesh_lon dim_lat dim_lon)

/-- `CurvilinearGrid._calc_lat_lon` (curvilinear.py:61-65): reshape the
supplied flat `yvals`/`xvals` to the `(y.size, x.size)` grid shape; a
size mismatch raises numpy's reshape error. -/
def curv_calc_lat_lon (gd : PyDict α) : Except PyError (NArr α × NArr α) := do
  let dims ← construct_dim gd
  let yvals ← dictGetArr gd "yvals"
  let xvals ← dictGetArr gd "xvals"
  let h := dims.1.length
  let w := dims.2.length
  if yvals.length = h * w ∧ xvals.length = h * w then
    .ok (⟨[h, w], yvals⟩, ⟨[h, w], xvals⟩)
  else
    .error (.valueError "cannot reshape array to grid shape")

/-- Modelled from the spec: `UnstructuredGrid._calc_lat_lon`. The file
`pymepps/grid/unstructured.py` is not in the repository snapshot (only
imported by curvilinear.py); per the spec an unstructured grid is a flat
list of (lat, lon) points whose `latLon()` is the supplied `yvals` and
`xvals` as given. -/
def unstr_calc_lat_lon (gd : PyDict α) : Except PyError (NArr α × NArr α) := do
  let yvals ← dictGetArr gd "yvals"
  let xvals ← dictGetArr gd "xvals"
  .ok (⟨[yvals.length], yvals⟩, ⟨[xvals.length], xvals⟩)

end Field

/-- The three grid variants of the repository. -/
inductive GridVariant where
  | lonlat
  | curvilinear
  | unstructured
  deriving DecidableEq, Repr

/-- A grid instance: its variant, its descriptor dictionary
(`_grid_dict`) and the lazily filled lat/lon cache (`_lat_lon`). -/
structure PGrid (α : Type) where
  variant : GridVariant
  grid_dict : PyDict α
  cache : Option (NArr α × NArr α)
  deriving DecidableEq, Repr

/-- `Grid.len_coords`: 2 for axis-addressed grids; 1 for unstructured
grids (the unstructured value is modelled from the spec, the class file
being absent from the snapshot). -/
def len_coords {α : Type} (g : PGrid α) : ℕ :=
  match g.variant with
  | .unstructured => 1
  | _ => 2

section Field2

variable {α : Type} [LinearOrderedField α] [FloorRing α]

/-- `Grid._calc_lat_lon`, dispatched on the grid variant. -/
def calc_lat_lon (piA : α) (g : PGrid α) : Except PyError (NArr α × NArr α) :=
  match g.variant with
  | .lonlat => lonlat_calc_lat_lon piA g.grid_dict
  | .curvilinear => curv_calc_lat_lon g.grid_dict
  | .unstructured => unstr_calc_lat_lon g.grid_dict

/-- The `Grid.lat_lon` property (grid.py:140-153): compute the lat/lon
field on first access and memoize it in `_lat_lon`. The xarray wrapping
of the two arrays is dropped from the model. -/
def lat_lon (piA : α) (g : PGrid α) :
    Except PyError ((NArr α × NArr α) × PGrid α) :=
  match g.cache with
  | some v => .ok (v, g)
  | none =>
    match calc_lat_lon piA g with
    | .ok v => .ok (v, { g with cache := some v })
    | .error e => .error e

end Field2

section Boxes

variable {α : Type} [LinearOrderedField α] [FloorRing α]

/-- `Grid._structured_box` (grid.py:444-470): filter the raw y-axis and
x-axis independently by the inclusive box bounds, slice `data` with the
row mask and then the column mask, and build the new descriptor: updated
`ysize`/`xsize`, literal `yvals`/`xvals`, with the four keys `yfirst`,
`yinc`, `xfirst`, `xinc` removed. No emptiness check is performed. -/
def structured_box (gd : PyDict α) (data : NArr α) (ll_box : List α) :
    Except PyError (NArr α × PyDict α) := do
  let dims ← construct_dim gd
  let calc_lat := dims.1
  let calc_lon := dims.2
  if ll_box.length = 4 then
    let lon_box := (ll_box.getD 0 0, ll_box.getD 2 0)
    let lat_box := (ll_box.getD 1 0, ll_box.getD 3 0)
    let lat_bound := calc_lat.map
      (fun v => decide (min lat_box.1 lat_box.2 ≤ v) &&
                decide (v ≤ max lat_box.1 lat_box.2))
    let lon_bound := calc_lon.map
      (fun v => decide (min lon_box.1 lon_box.2 ≤ v) &&
                decide (v ≤ max lon_box.1 lon_box.2))
    let sliced_data := maskLastDim (maskSecondLastDim data lat_bound) lon_bound
    let lat_vals := maskFilter calc_lat lat_bound
    let lon_vals := maskFilter calc_lon lon_bound
    let d1 := dictSet gd "ysize" (.num (lat_vals.length : α))
    let d2 := dictSet d1 "xsize" (.num (lon_vals.length : α))
    let d3 := dictSet d2 "yvals" (.arr lat_vals)
    let d4 := dictSet d3 "xvals" (.arr lon_vals)
    let d5 := dictPop (dictPop (dictPop (dictPop d4 "yfirst") "yinc") "xfirst") "xinc"
    .ok (sliced_data, d5)
  else
    .error (.valueError
      ("The latitude-longitude box doesn\x27t have a length of 4, instead the length is: "
        ++ toString ll_box.length))

/-- `Grid._unstructured_box` (grid.py:472-510): point-wise mask over the
computed lat/lon field; an all-false mask raises the empty-slice
`ValueError` before any data is sliced; otherwise the surviving points
become a fresh unstructured descriptor. -/
def unstructured_box (lenC : ℕ) (calc_lat calc_lon : NArr α) (data : NArr α)
    (ll_box : List α) : Except PyError (NArr α × PyDict α) :=
  if data.shape.drop (data.ndim - lenC) ≠ calc_lat.shape then
    .error (.valueError
      ("The last dimension(s) of the data needs the same shape as "
        ++ "the coordinates of this grid!"))
  else if ll_box.length = 4 then
    let lon_box := (ll_box.getD 0 0, ll_box.getD 2 0)
    let lat_box := (ll_box.getD 1 0, ll_box.getD 3 0)
    let bound := (calc_lat.flat.zip calc_lon.flat).map
      (fun p => decide (min lat_box.1 lat_box.2 ≤ p.1) &&
                decide (p.1 ≤ max lat_box.1 lat_box.2) &&
                decide (min lon_box.1 lon_box.2 ≤ p.2) &&
                decide (p.2 ≤ max lon_box.1 lon_box.2))
    if bound.count true = 0 then
      .error (.valueError
        "Only an empty array remains, please choose another longitude-latitude box!")
    else
      let sliced_data := maskTrailing data bound calc_lat.ndim
      let lat_vals := maskFilter calc_lat.flat bound
      let lon_vals := maskFilter calc_lon.flat bound
      let ngd : PyDict α :=
        [("gridtype", .str "unstructured"),
         ("xlongname", .str "longitude"), ("xname", .str "lon"),
         ("xunits", .str "degrees"),
         ("ylongname", .str "latitude"), ("yname", .str "lat"),
         ("yunits", .str "degrees")]
      let n1 := dictSet ngd "gridsize" (.num (lat_vals.length : α))
      let n2 := dictSet n1 "yvals" (.arr lat_vals)
      let n3 := dictSet n2 "xvals" (.arr lon_vals)
      .ok (sliced_data, n3)
  else
    .error (.valueError
      ("The latitude-longitude box doesn\x27t have a length of 4, instead the length is: "
        ++ toString ll_box.length))

/-- The default descriptor entries set by `LonLatGrid.__init__`
(lonlat.py:45-56); the supplied descriptor's entries win. -/
def lonlat_defaults {α : Type} : PyDict α :=
  [("gridtype", .str "lonlat"),
   ("xlongname", .str "longitude"), ("xname", .str "lon"),
   ("xunits", .str "degrees"),
   ("ylongname", .str "latitude"), ("yname", .str "lat"),
   ("yunits", .str "degrees")]

/-- The default descriptor entries set by `CurvilinearGrid.__init__`
(curvilinear.py:47-59). -/
def curv_defaults : PyDict α :=
  dictSet lonlat_defaults "gridtype" (.str "curvilinear") ++ [("nvertex", .num 4)]

/-- Modelled from the spec: defaults for the missing `UnstructuredGrid`
class, mirroring the descriptor `Grid._unstructured_box` emits. -/
def unstr_defaults {α : Type} : PyDict α :=
  [("gridtype", .str "unstructured"),
   ("xlongname", .str "longitude"), ("xname", .str "lon"),
   ("xunits", .str "degrees"),
   ("ylongname", .str "latitude"), ("yname", .str "lat"),
   ("yunits", .str "degrees")]

/-- The descriptor fields the spec declares type-required (section 3). -/
def required_fields : GridVariant → List String
  | .lonlat => ["yfirst", "yinc", "ysize", "xfirst", "xinc", "xsize"]
  | .curvilinear => ["yvals", "xvals"]
  | .unstructured => ["yvals", "xvals", "gridsize"]

/-- Modelled from the spec: `GridBuilder.build_grid`. The builder's file
is not in the repository snapshot (grid.py:429 calls
`pymepps.GridBuilder(new_grid_dict).build_grid()`); per spec section 4.2
it dispatches strictly on the `gridtype` field, failing with
`UnknownGridType` for unrecognised values and `MissingField` when a
type-required field is absent; each constructor merges the variant's
default entries with the supplied descriptor. -/
def build_grid (gd : PyDict α) : Except PyError (PGrid α) := do
  let gt ← dictGetStr gd "gridtype"
  let variant ←
    match gt with
    | "lonlat" => Except.ok GridVariant.lonlat
    | "curvilinear" => Except.ok GridVariant.curvilinear
    | "unstructured" => Except.ok GridVariant.unstructured
    | other => Except.error (PyError.valueError ("UnknownGridType: " ++ other))
  match (required_fields variant).find? (fun k => (dictFind gd k).isNone) with
  | some missing => .error (.valueError ("MissingField: " ++ missing))
  | none =>
    let defaults := match variant with
      | .lonlat => lonlat_defaults
      | .curvilinear => curv_defaults
      | .unstructured => unstr_defaults
    .ok { variant := variant, grid_dict := dictUpdate defaults gd, cache := none }

/-- `Grid._lonlatbox` (grid.py:389-442): validate the trailing data
dimensions against the computed lat/lon field, dispatch to the
structured or unstructured extraction, and build the sliced grid from
the returned descriptor (the xarray branch is dropped: data is numpy). -/
def grid_lonlatbox (piA : α) (g : PGrid α) (data : NArr α) (ll_box : List α)
    (unstructured : Bool) : Except PyError (NArr α × PGrid α) := do
  let src ← calc_lat_lon piA g
  if data.shape.drop (data.ndim - len_coords g) ≠ src.1.shape then
    .error (.valueError
      ("The last two dimension of the data needs the same shape as "
        ++ "the coordinates of this grid!"))
  else do
    let r ← if unstructured then
        unstructured_box (len_coords g) src.1 src.2 data ll_box
      else
        structured_box g.grid_dict data ll_box
    let sliced_grid ← build_grid r.2
    .ok (r.1, sliced_grid)

/-- `Grid.lonlatbox` per variant: `CurvilinearGrid.lonlatbox`
(curvilinear.py:67-90) requests unstructured output. The bodies for the
regular and unstructured variants are not in the snapshot (`lonlatbox`
is abstract in grid.py and `unstructured.py` is missing): modelled from
the spec, the regular variant uses the structured path (section 4.4) and
the unstructured variant masks point-wise (section 4.7). -/
def lonlatbox (piA : α) (g : PGrid α) (data : NArr α) (ll_box : List α) :
    Except PyError (NArr α × PGrid α) :=
  match g.variant with
  | .curvilinear => grid_lonlatbox piA g data ll_box true
  | .unstructured => grid_lonlatbox piA g data ll_box true
  | .lonlat => grid_lonlatbox piA g data ll_box false

end Boxes

section Normalize

variable {α : Type} [LinearOrderedField α] [FloorRing α]

/-- One pass body of the loop `while np.any(lon > 180): lon[lon > 180] -= 360`
run on a single entry, with enough fuel to terminate: `wrapFuel n x`
subtracts 360 while the value exceeds 180, at most `n` times. -/
def wrapFuel : ℕ → α → α
  | 0, x => x
  | n + 1, x => if x > 180 then wrapFuel n (x - 360) else x

/-- The longitude wrap of `Grid.normalize_lat_lon` (grid.py:206-207) on
one entry: the loop acts independently on every array entry, and entry
`x` needs exactly `⌈(x - 180)/360⌉` subtractions of 360. -/
def wrapLon (x : α) : α := wrapFuel (⌈(x - 180) / 360⌉).toNat x

/-- The order used by a stable `np.argsort` on positions: compare the
values, breaking ties by the original position. -/
def idxLe (vals : List α) (i j : ℕ) : Prop :=
  vals.getD i 0 < vals.getD j 0 ∨ (vals.getD i 0 = vals.getD j 0 ∧ i ≤ j)

instance (vals : List α) : DecidableRel (idxLe vals) := fun i j =>
  inferInstanceAs (Decidable (vals.getD i 0 < vals.getD j 0 ∨
    (vals.getD i 0 = vals.getD j 0 ∧ i ≤ j)))

/-- Stable 1-D `np.argsort`: the permutation of `[0, …, n)` listing the
positions of the values in ascending order, ties by first occurrence. -/
def argsortList (vals : List α) : List ℕ :=
  List.insertionSort (idxLe vals) (List.range vals.length)

/-- Row `i` of a 2-D array. -/
def npRow (a : NArr α) (i : ℕ) : List α :=
  (List.range (a.shape.getD 1 0)).map (fun j => a.flat.getD (i * a.shape.getD 1 0 + j) 0)

/-- Column `j` of a 2-D array. -/
def npCol (a : NArr α) (j : ℕ) : List α :=
  (List.range (a.shape.getD 0 0)).map (fun i => a.flat.getD (i * a.shape.getD 1 0 + j) 0)

/-- `np.argsort(a, axis)` for the 1-D and 2-D arrays the grid code
passes: axis 0 sorts down the columns, axis 1 along the rows; axis 1 on
a 1-D array raises numpy's `AxisError`. -/
def npArgsort (a : NArr α) (axis : ℕ) : Except PyError (NArr ℕ) :=
  match a.shape, axis with
  | [n], 0 => .ok ⟨[n], argsortList a.flat⟩
  | [_], _ => .error (.axisError "axis 1 is out of bounds for array of dimension 1")
  | [h, w], 0 => .ok ⟨[h, w],
      ((List.range h).map (fun i =>
        (List.range w).map (fun j => (argsortList (npCol a j)).getD i 0))).flatten⟩
  | [h, w], 1 => .ok ⟨[h, w],
      ((List.range h).map (fun i => argsortList (npRow a i))).flatten⟩
  | [_, _], _ => .error (.axisError "axis out of bounds for array of dimension 2")
  | _, _ => .error (.valueError "argsort model restricted to 1-D and 2-D arrays")

/-- Numpy advanced indexing `a[..., ia, ja]` with two equal-shaped 2-D
integer index arrays: entry `(…, i, j)` of the result is entry
`(…, ia[i,j], ja[i,j])` of `a`; the result's trailing shape is the index
arrays' shape. -/
def fancyIdx2 (a : NArr α) (ia ja : NArr ℕ) : NArr α :=
  let w := a.shape.getD (a.ndim - 1) 0
  let h := a.shape.getD (a.ndim - 2) 0
  let blocks := chunks (h * w) a.flat
  let idx := (List.range ia.flat.length).map
    (fun k => ia.flat.getD k 0 * w + ja.flat.getD k 0)
  { shape := a.shape.take (a.ndim - 2) ++ ia.shape,
    flat := (blocks.map (fun b => idx.map (fun t => b.getD t 0))).flatten }

/-- `Grid.normalize_lat_lon` (grid.py:176-216): wrap longitudes above
180 down by multiples of 360, argsort the latitudes down axis 0 and the
wrapped longitudes along axis 1, and reindex `lat`, `lon` and the
optional `data` with the two index arrays. -/
def normalize_lat_lon (lat lon : NArr α) (data : Option (NArr α)) :
    Except PyError (NArr α × NArr α × Option (NArr α)) := do
  let lon2 : NArr α := ⟨lon.shape, lon.flat.map wrapLon⟩
  let sort_order_lat ← npArgsort lat 0
  let sort_order_lon ← npArgsort lon2 1
  let ordered_data := data.map (fun d => fancyIdx2 d sort_order_lat sort_order_lon)
  let ordered_lat := fancyIdx2 lat sort_order_lat sort_order_lon
  let ordered_lon := fancyIdx2 lon2 sort_order_lat sort_order_lon
  .ok (ordered_lat, ordered_lon, ordered_data)

/-- The sorted rearrangement `vals[np.argsort(vals)]` of a 1-D array. -/
def sort_apply (l : List α) : List α :=
  (argsortList l).map (fun i => l.getD i 0)

end Normalize

section Interp

variable {α : Type} [LinearOrderedField α] [FloorRing α]

/-- Python `str.format` restricted to the one positional `\x7b0:d\x7d`
placeholder the grid code uses: formatting a template that contains the
placeholder with no arguments raises `IndexError`, as CPython does. -/
def pyFormat1 (template : String) (args : List String) : Except PyError String :=
  if strContains template "\x7b0:d\x7d" then
    match args with
    | [] => .error (.indexError "Replacement index 0 out of range")
    | a :: _ => .ok (String.intercalate a (template.splitOn "\x7b0:d\x7d"))
  else .ok template

/-- `np.concatenate((a, b), axis=1)`: concatenation of the rows of two
2-D arrays; on 1-D inputs current numpy raises `AxisError` (the numpy of
2017 instead ignored the axis keyword with a deprecation warning — on
either semantics the call sites in `_interpolate_unstructured`, which
pass ravelled 1-D arrays, never produce the `(n, 2)` point list that
`scipy.griddata` would need). -/
def np_concatenate_axis1 (a b : NArr α) : Except PyError (NArr α) :=
  if a.ndim ≤ 1 ∨ b.ndim ≤ 1 then
    .error (.axisError "axis 1 is out of bounds for array of dimension 1")
  else
    let h := a.shape.getD 0 0
    .ok ⟨[h, a.shape.getD 1 0 + b.shape.getD 1 0],
      ((List.range h).map (fun i => npRow a i ++ npRow b i)).flatten⟩

/-- `Grid._interpolate_unstructured` (grid.py:231-256): order 1 selects
`method='linear'`, every other order `method='nearest'`; the data is
reshaped to slices over the source points and each slice remapped by
`scipy.interpolate.griddata` (an external collaborator, here the
function parameter `griddataF`). -/
def interpolate_unstructured (lenC : ℕ) (data : NArr α)
    (src_lat src_lon trg_lat trg_lon : NArr α) (order : ℤ)
    (griddataF : NArr α → List α → NArr α → String → List α) :
    Except PyError (NArr α) := do
  let method := if order == 1 then "linear" else "nearest"
  let reshaped := chunks src_lat.flat.length data.flat
  let unravel_shape := data.shape.take (data.ndim - lenC) ++ trg_lat.shape
  let src_lat1 : NArr α := ⟨[src_lat.flat.length], src_lat.flat⟩
  let src_lon1 : NArr α := ⟨[src_lon.flat.length], src_lon.flat⟩
  let src_coords ← np_concatenate_axis1 src_lat1 src_lon1
  let trg_lat1 : NArr α := ⟨[trg_lat.flat.length], trg_lat.flat⟩
  let trg_lon1 : NArr α := ⟨[trg_lon.flat.length], trg_lon.flat⟩
  let trg_coords ← np_concatenate_axis1 trg_lat1 trg_lon1
  let remapped := reshaped.map (fun row => griddataF src_coords row trg_coords method)
  .ok ⟨unravel_shape, remapped.flatten⟩

/-- `Grid._interpolate_structured` (grid.py:258-273): reshape the data
to 2-D slices, remap each transposed slice with `basemap.interp` (an
external collaborator, here the function parameter `interpF`, which
receives the order unchanged), and reassemble with the target shape. -/
def interpolate_structured (data : NArr α) (src_lat src_lon : List α)
    (trg_lat trg_lon : NArr α) (order : ℤ)
    (interpF : List (List α) → List α → List α → NArr α → NArr α → ℤ → List (List α)) :
    NArr α :=
  let h := data.shape.getD (data.ndim - 2) 0
  let w := data.shape.getD (data.ndim - 1) 0
  let slices := chunks (h * w) data.flat
  let th := trg_lat.shape.getD (trg_lat.ndim - 2) 0
  let tw := trg_lat.shape.getD (trg_lat.ndim - 1) 0
  let remapped := slices.map
    (fun s => (interpF (chunks w s).transpose src_lat src_lon trg_lat trg_lon order).flatten)
  ⟨data.shape.take (data.ndim - 2) ++ [th, tw], remapped.flatten⟩

/-- `Grid.interpolate` (grid.py:275-333) for numpy data (the xarray
re-wrapping branch is identity on the values and is dropped): validate
the trailing data dimensions — the raise site formats its message with
`'The last \x7b0:d\x7d dimensions …'.format()`, so `str.format` raises
`IndexError` before the `ValueError` is built —, normalize source and
target coordinates, then dispatch on the coordinate counts. -/
def interpolate (piA : α) (g : PGrid α) (data : NArr α) (other_grid : PGrid α)
    (order : ℤ)
    (interpF : List (List α) → List α → List α → NArr α → NArr α → ℤ → List (List α))
    (griddataF : NArr α → List α → NArr α → String → List α) :
    Except PyError (NArr α) := do
  let src ← calc_lat_lon piA g
  if data.shape.drop (data.ndim - len_coords g) ≠ src.1.shape then
    match pyFormat1 ("The last \x7b0:d\x7d dimensions of the data needs the same shape as "
        ++ "the coordinates of this grid!") [] with
    | .error e => .error e
    | .ok msg => .error (.valueError msg)
  else do
    let nsrc ← normalize_lat_lon src.1 src.2 (some data)
    let data2 := nsrc.2.2.getD data
    let trg ← calc_lat_lon piA other_grid
    let ntrg ← normalize_lat_lon trg.1 trg.2 none
    if min (len_coords g) (len_coords other_grid) = 1 then
      interpolate_unstructured (len_coords g) data2 nsrc.1 nsrc.2.1
        ntrg.1 ntrg.2.1 order griddataF
    else
      .ok (interpolate_structured data2 (npCol nsrc.1 0) (npRow nsrc.2.1 0)
        ntrg.1 ntrg.2.1 order interpF)

end Interp

section Haversine

/-- `np.deg2rad`. -/
noncomputable def deg2rad (x : ℝ) : ℝ := x * Real.pi / 180

/-- `distance_haversine` (grid.py:535-571): great-circle distance in
metres with Earth radius 6371000 m. -/
noncomputable def distance_haversine (p1 p2 : ℝ × ℝ) : ℝ :=
  let lat1 := deg2rad p1.1
  let lon1 := deg2rad p1.2
  let lat2 := deg2rad p2.1
  let lon2 := deg2rad p2.2
  let dlon := lon2 - lon1
  let dlat := lat2 - lat1
  let a := Real.sin (dlat / 2) ^ 2 +
    Real.cos lat1 * Real.cos lat2 * Real.sin (dlon / 2) ^ 2
  let c := 2 * Real.arcsin (Real.sqrt a)
  6371000 * c

/-- Accumulator loop of `np.argmin`: strict improvement keeps the first
occurrence of the minimum. -/
def argmin_aux {β : Type} [LinearOrder β] : List β → ℕ → β → ℕ → ℕ
  | [], bi, _, _ => bi
  | x :: xs, bi, bv, i => if x < bv then argmin_aux xs i x (i + 1) else argmin_aux xs bi bv (i + 1)

/-- `np.argmin` on a flat list: index of the first minimal entry
(`0` on the empty list, where numpy raises instead). -/
def argmin_np {β : Type} [LinearOrder β] : List β → ℕ
  | [] => 0
  | x :: xs => argmin_aux xs 0 x 1

/-- `np.unravel_index(k, shape)` for row-major order. -/
def unravel_index : ℕ → List ℕ → List ℕ
  | _, [] => []
  | k, _ :: ds => k / ds.prod :: unravel_index (k % ds.prod) ds

/-- `Grid.nearest_point` (grid.py:335-341) on the computed lat/lon
field: haversine distance from the target to every flattened grid
point, `argmin`, unravelled to the field's shape. -/
noncomputable def nearest_point (lat lon : NArr ℝ) (coord : ℝ × ℝ) : List ℕ :=
  let calc_distance := (lat.flat.zip lon.flat).map (fun p => distance_haversine coord p)
  unravel_index (argmin_np calc_distance) lat.shape

/-- `Grid.nearest_point` at the grid level. -/
noncomputable def grid_nearest_point (piA : ℝ) (g : PGrid ℝ) (coord : ℝ × ℝ) :
    Except PyError (List ℕ) :=
  (calc_lat_lon piA g).map (fun src => nearest_point src.1 src.2 coord)

end Haversine

section NearestValue

/-- A value produced by integer indexing of a numpy array: either a
python/numpy scalar (for `ndim`-many integer indices) or an `ndarray`. -/
inductive NpVal (α : Type) where
  | scal (x : α)
  | arr (a : NArr α)
  deriving DecidableEq, Repr

/-- Number of dimensions of an indexing result; a numpy scalar has 0. -/
def NpVal.ndim {α : Type} : NpVal α → ℕ
  | .scal _ => 0
  | .arr a => a.shape.length

/-- `data[..., i]`: a scalar if `data` is 1-D, else the 1-axis-shorter
array. -/
def npIndexTrail1 {α : Type} [Zero α] (a : NArr α) (i : ℕ) : NpVal α :=
  if a.ndim = 1 then .scal (a.flat.getD i 0)
  else .arr ⟨a.shape.take (a.ndim - 1),
    (chunks (a.shape.getD (a.ndim - 1) 0) a.flat).map (fun b => b.getD i 0)⟩

/-- `data[..., i, j]`: a numpy scalar if `data` is 2-D, else the
2-axes-shorter array. -/
def npIndexTrail2 {α : Type} [Zero α] (a : NArr α) (i j : ℕ) : NpVal α :=
  if a.ndim = 2 then .scal (a.mget i j)
  else
    let w := a.shape.getD (a.ndim - 1) 0
    let h := a.shape.getD (a.ndim - 2) 0
    .arr ⟨a.shape.take (a.ndim - 2),
      (chunks (h * w) a.flat).map (fun b => b.getD (i * w + j) 0)⟩

/-- `isinstance(x, np.ndarray)`: false for numpy scalars. -/
def isinstance_ndarray {α : Type} : NpVal α → Bool
  | .arr _ => true
  | .scal _ => false

/-- `np.atleast_1d`. -/
def np_atleast_1d {α : Type} : NpVal α → NpVal α
  | .scal x => .arr ⟨[1], [x]⟩
  | .arr a => if a.shape.length = 0 then .arr ⟨[1], a.flat⟩ else .arr a

/-- `Grid.get_nearest_point` (grid.py:343-380): validate the trailing
data dimensions, find the nearest index, extract the data there, and
promote with `np.atleast_1d` — but only when the extracted value passed
the `isinstance(…, np.ndarray)` guard. -/
noncomputable def get_nearest_point (piA : ℝ) (g : PGrid ℝ) (data : NArr ℝ)
    (coord : ℝ × ℝ) : Except PyError (NpVal ℝ) := do
  let src ← calc_lat_lon piA g
  if data.shape.drop (data.ndim - len_coords g) ≠ src.1.shape then
    .error (.valueError ("The last two dimension of the data needs the same shape as "
      ++ "the coordinates of this grid!"))
  else
    let nearest_ind := nearest_point src.1 src.2 coord
    let nearest_data :=
      if len_coords g = 1 then npIndexTrail1 data (nearest_ind.getD 0 0)
      else npIndexTrail2 data (nearest_ind.getD 0 0) (nearest_ind.getD 1 0)
    .ok (if isinstance_ndarray nearest_data then np_atleast_1d nearest_data else nearest_data)

end NearestValue

section Examples

/-- A regular lon/lat descriptor with latitude axis `[50, 51, 52]` and
longitude axis `[10, 10.5, 11]` (the spec's section-8 scenario grid). -/
def exRegDict : PyDict ℚ :=
  dictUpdate lonlat_defaults
    [("gridtype", .str "lonlat"),
     ("yfirst", .num 50), ("yinc", .num 1), ("ysize", .num 3),
     ("xfirst", .num 10), ("xinc", .num (1/2)), ("xsize", .num 3)]

/-- The regular grid built on `exRegDict`. -/
def exRegGrid : PGrid ℚ := { variant := .lonlat, grid_dict := exRegDict, cache := none }

/-- A 3×3 data array on `exRegGrid`. -/
def exData9 : NArr ℚ := ⟨[3, 3], [0, 1, 2, 3, 4, 5, 6, 7, 8]⟩

/-- A 1×1 curvilinear descriptor holding the single point (50, 10). -/
def exCurvDict : PyDict ℚ :=
  dictUpdate curv_defaults
    [("gridtype", .str "curvilinear"),
     ("yfirst", .num 0), ("yinc", .num 1), ("ysize", .num 1),
     ("xfirst", .num 0), ("xinc", .num 1), ("xsize", .num 1),
     ("yvals", .arr [50]), ("xvals", .arr [10])]

/-- The curvilinear grid built on `exCurvDict`. -/
def exCurvGrid : PGrid ℚ := { variant := .curvilinear, grid_dict := exCurvDict, cache := none }

/-- A 1×1 data array on `exCurvGrid`. -/
def exData1 : NArr ℚ := ⟨[1, 1], [7]⟩

/-- The 1×1 curvilinear descriptor at `ℝ`, for the claims that run
through the haversine distance. -/
noncomputable def exCurvDictR : PyDict ℝ :=
  dictUpdate curv_defaults
    [("gridtype", .str "curvilinear"),
     ("yfirst", .num 0), ("yinc", .num 1), ("ysize", .num 1),
     ("xfirst", .num 0), ("xinc", .num 1), ("xsize", .num 1),
     ("yvals", .arr [50]), ("xvals", .arr [10])]

/-- The curvilinear grid built on `exCurvDictR`. -/
noncomputable def exCurvGridR : PGrid ℝ := { variant := .curvilinear, grid_dict := exCurvDictR, cache := none }

/-- A 1×1 data array on `exCurvGridR`. -/
noncomputable def exData1R : NArr ℝ := ⟨[1, 1], [7]⟩

end Examples

/-! Infrastructure lemmas. -/

theorem exceptBind_ok {ε β γ : Type} (a : β) (f : β → Except ε γ) :
    (Except.ok a >>= f) = f a := rfl

theorem exceptBind_error {ε β γ : Type} (e : ε) (f : β → Except ε γ) :
    ((Except.error e : Except ε β) >>= f) = .error e := rfl

theorem dictFind_cons {α : Type} (p : String × GVal α) (rest : PyDict α) (k : String) :
    dictFind (p :: rest) k = if p.1 = k then some p.2 else dictFind rest k := by
  by_cases h : p.1 = k <;> simp [dictFind, List.find?_cons, h]

theorem dictFind_append {α : Type} (d1 d2 : PyDict α) (k : String) :
    dictFind (d1 ++ d2) k =
      match dictFind d1 k with
      | some v => some v
      | none => dictFind d2 k := by
  induction d1 with
  | nil => simp [dictFind]
  | cons p rest ih =>
    rw [List.cons_append, dictFind_cons, dictFind_cons]
    by_cases h : p.1 = k <;> simp [h, ih]

theorem dictFind_isSome_find {α : Type} (d : PyDict α) (k : String) :
    (dictFind d k).isSome = (d.find? (fun p => p.1 == k)).isSome := by
  unfold dictFind
  cases d.find? (fun p => p.1 == k) <;> simp

theorem dictFind_map_set {α : Type} (d : PyDict α) (k k' : String) (v : GVal α) :
    dictFind (d.map (fun p => if p.1 == k then (k, v) else p)) k' =
      if k' = k then (if (dictFind d k).isSome then some v else none)
      else dictFind d k' := by
  induction d with
  | nil => simp [dictFind]
  | cons p rest ih =>
    rw [List.map_cons]
    by_cases hpk : p.1 = k
    · rw [show (if (p.1 == k) = true then (k, v) else p) = (k, v) from by simp [hpk]]
      simp only [dictFind_cons]
      by_cases hk' : k' = k
      · simp [hk', hpk]
      · simp only [show ¬ (k = k') from fun h => hk' (Eq.symm h), if_false,
          show ¬ (p.1 = k') from fun h => hk' (by rw [← h]; exact hpk), hk']
        simpa [hk'] using ih
    · rw [show (if (p.1 == k) = true then (k, v) else p) = p from by simp [hpk]]
      simp only [dictFind_cons]
      by_cases hpk' : p.1 = k'
      · have hk' : ¬ k' = k := fun h => hpk (by rw [hpk', h])
        simp [hpk', hk']
      · simpa [hpk', hpk] using ih

theorem dictFind_set {α : Type} (d : PyDict α) (k k' : String) (v : GVal α) :
    dictFind (dictSet d k v) k' = if k' = k then some v else dictFind d k' := by
  unfold dictSet
  by_cases h : (d.find? (fun p => p.1 == k)).isSome
  · rw [if_pos h, dictFind_map_set]
    rw [show (dictFind d k).isSome = true from (dictFind_isSome_find d k).trans h]
    simp
  · rw [if_neg h, dictFind_append]
    by_cases hk : k' = k
    · subst hk
      have hn : dictFind d k' = none := by
        rw [← Option.not_isSome_iff_eq_none, dictFind_isSome_find]
        exact h
      rw [hn]
      simp [dictFind_cons]
    · by_cases hd : (dictFind d k').isSome
      · obtain ⟨x, hx⟩ := Option.isSome_iff_exists.mp hd
        rw [hx, if_neg hk]
      · rw [Option.not_isSome_iff_eq_none.mp hd, if_neg hk]
        simp only [dictFind_cons, dictFind, List.find?]
        rw [show (k == k') = false from by simp [Ne.symm hk]]
        rfl

theorem dictFind_pop {α : Type} (d : PyDict α) (k k' : String) :
    dictFind (dictPop d k) k' = if k' = k then none else dictFind d k' := by
  induction d with
  | nil => simp [dictFind, dictPop]
  | cons p rest ih =>
    unfold dictPop at *
    rw [List.filter_cons]
    by_cases hpk : p.1 = k
    · rw [show (decide ¬ (p.1 == k) = true) = false from by simp [hpk], if_neg (by simp)]
      rw [ih, dictFind_cons]
      by_cases hk : k' = k
      · simp [hk]
      · simp [hk, show ¬ (p.1 = k') from hpk ▸ fun h => hk (Eq.symm h)]
    · rw [show (decide ¬ (p.1 == k) = true) = true from by simp [hpk], if_pos rfl]
      rw [dictFind_cons, dictFind_cons, ih]
      by_cases hpk' : p.1 = k'
      · simp [hpk', show ¬ (k' = k) from fun h => hpk (by rw [hpk', h])]
      · simp [hpk']

theorem arange_nat {α : Type} [LinearOrderedField α] [FloorRing α]
    (start w : α) (n : ℕ) (hw : w ≠ 0) :
    arange start (start + (n : α) * w) w =
      .ok ((List.range n).map fun i : ℕ => start + (i : α) * w) := by
  unfold arange
  rw [if_neg hw]
  have h : (start + (n : α) * w - start) / w = (n : α) := by field_simp
  rw [h, Int.ceil_natCast, Int.toNat_ofNat]

theorem calc_single_dim_eval {α : Type} [LinearOrderedField α] [FloorRing α]
    (gd : PyDict α) (dim : String) (f s w : α) (n : ℕ)
    (hf : dictGetNum gd (dim ++ "first") = .ok f)
    (hs : dictGetNum gd (dim ++ "size") = .ok s)
    (hw : dictGetNum gd (dim ++ "inc") = .ok w)
    (hn : s = (n : α)) (hw0 : w ≠ 0) :
    calc_single_dim gd dim = .ok ((List.range n).map fun i : ℕ => f + (i : α) * w) := by
  unfold calc_single_dim
  rw [hf]
  simp only [exceptBind_ok]
  rw [hs]
  simp only [exceptBind_ok]
  rw [hw]
  simp only [exceptBind_ok]
  rw [hn, arange_nat f w n hw0]

theorem construct_dim_eval {α : Type} [LinearOrderedField α] [FloorRing α]
    (gd : PyDict α) (ly lx : List α)
    (hy : calc_single_dim gd "y" = .ok ly)
    (hx : calc_single_dim gd "x" = .ok lx) :
    construct_dim gd = .ok (ly, lx) := by
  unfold construct_dim
  rw [hy]
  simp only [exceptBind_ok]
  rw [hx]
  rfl

/-- Axes of the scenario grid `exRegDict`. -/
theorem exRegDict_construct :
    construct_dim exRegDict = .ok ([50, 51, 52], [10, 21/2, 11]) := by
  have hy := calc_single_dim_eval (α := ℚ) exRegDict "y" 50 3 1 3 rfl rfl rfl
    (by norm_num) (by norm_num)
  have hx := calc_single_dim_eval (α := ℚ) exRegDict "x" 10 3 (1/2) 3 rfl rfl rfl
    (by norm_num) (by norm_num)
  refine construct_dim_eval _ _ _ ?_ ?_
  · rw [hy]
    norm_num [List.range_succ]
  · rw [hx]
    norm_num [List.range_succ]

/-- C8: `Grid._structured_box` filters the y-axis and x-axis
independently with inclusive bounds (`min ≤ v ≤ max` of the box pairs
`(north, south)` and `(west, east)`), slices the data with the row mask
and then the column mask, and emits a descriptor carrying literal
`yvals`/`xvals` with updated `ysize`/`xsize` and with
`yfirst`/`yinc`/`xfirst`/`xinc` removed. On the grid with lat axis
`[50, 51, 52]` and lon axis `[10, 10.5, 11]`, the box `(10, 52, 11, 50)`
retains all 9 points, and the box `(10, 51, 10.5, 50)` retains exactly
the 4 points with lat in `{50, 51}` and lon in `{10, 10.5}`. -/
theorem structured_box_general :
    ∀ (gd : PyDict ℚ) (data : NArr ℚ) (w n e s : ℚ) (la lo : List ℚ),
      construct_dim gd = .ok (la, lo) →
      ∃ sliced ngd,
        structured_box gd data [w, n, e, s] = .ok (sliced, ngd) ∧
        (let lat_mask := la.map (fun v => decide (min n s ≤ v) && decide (v ≤ max n s))
         let lon_mask := lo.map (fun v => decide (min w e ≤ v) && decide (v ≤ max w e))
         sliced = maskLastDim (maskSecondLastDim data lat_mask) lon_mask ∧
         dictFind ngd "yvals" = some (.arr (maskFilter la lat_mask)) ∧
         dictFind ngd "xvals" = some (.arr (maskFilter lo lon_mask)) ∧
         dictFind ngd "ysize" = some (.num ((maskFilter la lat_mask).length : ℚ)) ∧
         dictFind ngd "xsize" = some (.num ((maskFilter lo lon_mask).length : ℚ)) ∧
         dictFind ngd "yfirst" = none ∧ dictFind ngd "yinc" = none ∧
         dictFind ngd "xfirst" = none ∧ dictFind ngd "xinc" = none) := by
  intro gd data w n e s la lo h
  unfold structured_box
  rw [h]
  simp only [exceptBind_ok]
  rw [if_pos (show ([w, n, e, s].length = 4) from rfl)]
  simp only [List.getD_cons_zero, List.getD_cons_succ]
  refine ⟨_, _, rfl, rfl, ?_, ?_, ?_, ?_, ?_, ?_, ?_, ?_⟩
  · rw [dictFind_pop, if_neg (by decide), dictFind_pop, if_neg (by decide),
        dictFind_pop, if_neg (by decide), dictFind_pop, if_neg (by decide),
        dictFind_set, if_neg (by decide), dictFind_set, if_pos rfl]
  · rw [dictFind_pop, if_neg (by decide), dictFind_pop, if_neg (by decide),
        dictFind_pop, if_neg (by decide), dictFind_pop, if_neg (by decide),
        dictFind_set, if_pos rfl]
  · rw [dictFind_pop, if_neg (by decide), dictFind_pop, if_neg (by decide),
        dictFind_pop, if_neg (by decide), dictFind_pop, if_neg (by decide),
        dictFind_set, if_neg (by decide), dictFind_set, if_neg (by decide),
        dictFind_set, if_neg (by decide), dictFind_set, if_pos rfl]
  · rw [dictFind_pop, if_neg (by decide), dictFind_pop, if_neg (by decide),
        dictFind_pop, if_neg (by decide), dictFind_pop, if_neg (by decide),
        dictFind_set, if_neg (by decide), dictFind_set, if_neg (by decide),
        dictFind_set, if_pos rfl]
  · rw [dictFind_pop, if_neg (by decide), dictFind_pop, if_neg (by decide),
        dictFind_pop, if_neg (by decide), dictFind_pop, if_pos rfl]
  · rw [dictFind_pop, if_neg (by decide), dictFind_pop, if_neg (by decide),
        dictFind_pop, if_pos rfl]
  · rw [dictFind_pop, if_neg (by decide), dictFind_pop, if_pos rfl]
  · rw [dictFind_pop, if_pos rfl]

theorem C8_structured_box_spec :
    (∀ (gd : PyDict ℚ) (data : NArr ℚ) (w n e s : ℚ) (la lo : List ℚ),
      construct_dim gd = .ok (la, lo) →
      ∃ sliced ngd,
        structured_box gd data [w, n, e, s] = .ok (sliced, ngd) ∧
        (let lat_mask := la.map (fun v => decide (min n s ≤ v) && decide (v ≤ max n s))
         let lon_mask := lo.map (fun v => decide (min w e ≤ v) && decide (v ≤ max w e))
         sliced = maskLastDim (maskSecondLastDim data lat_mask) lon_mask ∧
         dictFind ngd "yvals" = some (.arr (maskFilter la lat_mask)) ∧
         dictFind ngd "xvals" = some (.arr (maskFilter lo lon_mask)) ∧
         dictFind ngd "ysize" = some (.num ((maskFilter la lat_mask).length : ℚ)) ∧
         dictFind ngd "xsize" = some (.num ((maskFilter lo lon_mask).length : ℚ)) ∧
         dictFind ngd "yfirst" = none ∧ dictFind ngd "yinc" = none ∧
         dictFind ngd "xfirst" = none ∧ dictFind ngd "xinc" = none)) ∧
    (∃ s1 d1, structured_box exRegDict exData9 [10, 52, 11, 50] = .ok (s1, d1) ∧
      s1 = exData9 ∧
      dictFind d1 "yvals" = some (.arr [50, 51, 52]) ∧
      dictFind d1 "xvals" = some (.arr [10, 21/2, 11]) ∧
      dictFind d1 "ysize" = some (.num 3) ∧ dictFind d1 "xsize" = some (.num 3)) ∧
    (∃ s2 d2, structured_box exRegDict exData9 [10, 51, 21/2, 50] = .ok (s2, d2) ∧
      s2.shape = [2, 2] ∧ s2.flat = [0, 1, 3, 4] ∧
      dictFind d2 "yvals" = some (.arr [50, 51]) ∧
      dictFind d2 "xvals" = some (.arr [10, 21/2]) ∧
      dictFind d2 "ysize" = some (.num 2) ∧ dictFind d2 "xsize" = some (.num 2)) := by
  have main := structured_box_general
  refine ⟨main, ?_, ?_⟩
  · obtain ⟨s1, d1, heq1, hs1, hyv1, hxv1, hys1, hxs1, -, -, -, -⟩ :=
      main exRegDict exData9 10 52 11 50 _ _ exRegDict_construct
    have hml : ([50, 51, 52].map (fun v : ℚ => decide (min 52 50 ≤ v) && decide (v ≤ max 52 50))) = [true, true, true] := by
      norm_num [min_def, max_def]
    have hmo : ([10, 21/2, 11].map (fun v : ℚ => decide (min 10 11 ≤ v) && decide (v ≤ max 10 11))) = [true, true, true] := by
      norm_num [min_def, max_def]
    simp only [hml, hmo] at hs1 hyv1 hxv1 hys1 hxs1
    refine ⟨s1, d1, heq1, ?_, ?_, ?_, ?_, ?_⟩
    · rw [hs1]
      norm_num [maskLastDim, maskSecondLastDim, chunks, chunksFuel, maskFilter, exData9,
        NArr.ndim, List.filterMap_cons, List.filterMap_nil]
    · rw [hyv1]
      norm_num [maskFilter, List.filterMap_cons, List.filterMap_nil]
    · rw [hxv1]
      norm_num [maskFilter, List.filterMap_cons, List.filterMap_nil]
    · rw [hys1]
      norm_num [maskFilter, List.filterMap_cons, List.filterMap_nil]
    · rw [hxs1]
      norm_num [maskFilter, List.filterMap_cons, List.filterMap_nil]
  · obtain ⟨s2, d2, heq2, hs2, hyv2, hxv2, hys2, hxs2, -, -, -, -⟩ :=
      main exRegDict exData9 10 51 (21/2) 50 _ _ exRegDict_construct
    have hml : ([50, 51, 52].map (fun v : ℚ => decide (min 51 50 ≤ v) && decide (v ≤ max 51 50))) = [true, true, false] := by
      norm_num [min_def, max_def]
    have hmo : ([10, 21/2, 11].map (fun v : ℚ => decide (min 10 (21/2) ≤ v) && decide (v ≤ max 10 (21/2)))) = [true, true, false] := by
      norm_num [min_def, max_def]
    simp only [hml, hmo] at hs2 hyv2 hxv2 hys2 hxs2
    refine ⟨s2, d2, heq2, ?_, ?_, ?_, ?_, ?_, ?_⟩
    · rw [hs2]
      norm_num [maskLastDim, maskSecondLastDim, chunks, chunksFuel, maskFilter, exData9,
        NArr.ndim, List.filterMap_cons, List.filterMap_nil]
    · rw [hs2]
      norm_num [maskLastDim, maskSecondLastDim, chunks, chunksFuel, maskFilter, exData9,
        NArr.ndim, List.filterMap_cons, List.filterMap_nil]
    · rw [hyv2]
      norm_num [maskFilter, List.filterMap_cons, List.filterMap_nil]
    · rw [hxv2]
      norm_num [maskFilter, List.filterMap_cons, List.filterMap_nil]
    · rw [hys2]
      norm_num [maskFilter, List.filterMap_cons, List.filterMap_nil]
    · rw [hxs2]
      norm_num [maskFilter, List.filterMap_cons, List.filterMap_nil]

/-- Witness for C8: the general slicing characterisation applied to the
scenario grid and the box `(10, 51, 10.5, 50)`. -/
theorem C8_witness :
    construct_dim exRegDict = .ok ([50, 51, 52], [10, 21/2, 11]) ∧
    (∃ sliced ngd, structured_box exRegDict exData9 [10, 51, 21/2, 50] = .ok (sliced, ngd) ∧
      dictFind ngd "yfirst" = none ∧ dictFind ngd "yinc" = none ∧
      dictFind ngd "xfirst" = none ∧ dictFind ngd "xinc" = none) := by
  obtain ⟨sliced, ngd, heq, -, -, -, -, -, hyf, hyi, hxf, hxi⟩ :=
    C8_structured_box_spec.1 exRegDict exData9 10 51 (21/2) 50 _ _ exRegDict_construct
  exact ⟨exRegDict_construct, sliced, ngd, heq, hyf, hyi, hxf, hxi⟩

/-- C1 (amended): on the point-wise (unstructured) slicing path used by
the curvilinear and unstructured grid variants, a box excluding every
grid point makes `Grid._unstructured_box` fail with the empty-slice
`ValueError` and return no partial result (the error is raised before
any data is sliced). The structured path used by regular grids performs
no such check (see the counterexample). -/
theorem C1_amended :
    ∀ (lenC : ℕ) (calc_lat calc_lon : NArr ℚ) (data : NArr ℚ) (w n e s : ℚ),
      data.shape.drop (data.ndim - lenC) = calc_lat.shape →
      (∀ p ∈ calc_lat.flat.zip calc_lon.flat,
        ¬ (min n s ≤ p.1 ∧ p.1 ≤ max n s ∧ min w e ≤ p.2 ∧ p.2 ≤ max w e)) →
      unstructured_box lenC calc_lat calc_lon data [w, n, e, s] =
        .error (.valueError
          "Only an empty array remains, please choose another longitude-latitude box!") := by
  intro lenC calc_lat calc_lon data w n e s hshape hempty
  unfold unstructured_box
  rw [if_neg (by rw [hshape]; exact fun h => h rfl)]
  rw [if_pos (show ([w, n, e, s].length = 4) from rfl)]
  simp only [List.getD_cons_zero, List.getD_cons_succ]
  rw [if_pos ?_]
  rw [List.count_eq_zero]
  intro hmem
  obtain ⟨p, hp, hdec⟩ := List.mem_map.mp hmem
  refine hempty p hp ?_
  simp only [Bool.and_eq_true, decide_eq_true_eq] at hdec
  exact ⟨hdec.1.1.1, hdec.1.1.2, hdec.1.2, hdec.2⟩

/-- Witness for C1: a single-point grid at (50, 10) sliced with the box
`(100, 51, 110, 49)`, which excludes the point. -/
theorem C1_witness :
    ((⟨[1, 1], [7]⟩ : NArr ℚ).shape.drop ((⟨[1, 1], [7]⟩ : NArr ℚ).ndim - 2) =
      (⟨[1, 1], [50]⟩ : NArr ℚ).shape) ∧
    (∀ p ∈ ((⟨[1, 1], [50]⟩ : NArr ℚ)).flat.zip ((⟨[1, 1], [10]⟩ : NArr ℚ)).flat,
      ¬ (min (51:ℚ) 49 ≤ p.1 ∧ p.1 ≤ max 51 49 ∧ min (100:ℚ) 110 ≤ p.2 ∧ p.2 ≤ max 100 110)) ∧
    unstructured_box 2 (⟨[1, 1], [50]⟩ : NArr ℚ) ⟨[1, 1], [10]⟩ ⟨[1, 1], [7]⟩
        [100, 51, 110, 49] =
      .error (.valueError
        "Only an empty array remains, please choose another longitude-latitude box!") := by
  have h1 : ((⟨[1, 1], [7]⟩ : NArr ℚ).shape.drop ((⟨[1, 1], [7]⟩ : NArr ℚ).ndim - 2) =
      (⟨[1, 1], [50]⟩ : NArr ℚ).shape) := rfl
  have h2 : (∀ p ∈ ((⟨[1, 1], [50]⟩ : NArr ℚ)).flat.zip ((⟨[1, 1], [10]⟩ : NArr ℚ)).flat,
      ¬ (min (51:ℚ) 49 ≤ p.1 ∧ p.1 ≤ max 51 49 ∧ min (100:ℚ) 110 ≤ p.2 ∧ p.2 ≤ max 100 110)) := by
    intro p hp
    simp only [List.zip_cons_cons, List.zip_nil_right, List.mem_singleton] at hp
    subst hp
    norm_num [min_def, max_def]
  exact ⟨h1, h2, C1_amended 2 ⟨[1, 1], [50]⟩ ⟨[1, 1], [10]⟩ ⟨[1, 1], [7]⟩ 100 51 110 49 h1 h2⟩

/-- Counterexample to C1 as stated: on the regular grid with axes
`[50, 51, 52]` × `[10, 10.5, 11]`, the box `(200, 300, 210, 250)`
excludes every grid point, yet `Grid._structured_box` raises no
`EmptySliceResult`: it returns an empty sliced array and a descriptor
with `ysize = xsize = 0`. -/
theorem C1_counterexample :
    ∃ sliced ngd, structured_box exRegDict exData9 [200, 300, 210, 250] = .ok (sliced, ngd) ∧
      dictFind ngd "ysize" = some (.num 0) ∧ dictFind ngd "yvals" = some (.arr []) ∧
      dictFind ngd "xsize" = some (.num 0) ∧ sliced.shape = [0, 0] ∧ sliced.flat = [] := by
  obtain ⟨sliced, ngd, heq, hs, hyv, -, hys, hxs, -, -, -, -⟩ :=
    structured_box_general exRegDict exData9 200 300 210 250 _ _ exRegDict_construct
  have hml : ([50, 51, 52].map (fun v : ℚ => decide (min 300 250 ≤ v) && decide (v ≤ max 300 250))) = [false, false, false] := by
    norm_num [min_def, max_def]
  have hmo : ([10, 21/2, 11].map (fun v : ℚ => decide (min 200 210 ≤ v) && decide (v ≤ max 200 210))) = [false, false, false] := by
    norm_num [min_def, max_def]
  simp only [hml, hmo] at hs hyv hys hxs
  refine ⟨sliced, ngd, heq, ?_, ?_, ?_, ?_, ?_⟩
  · rw [hys]
    norm_num [maskFilter, List.filterMap_cons, List.filterMap_nil]
  · rw [hyv]
    norm_num [maskFilter, List.filterMap_cons, List.filterMap_nil]
  · rw [hxs]
    norm_num [maskFilter, List.filterMap_cons, List.filterMap_nil]
  · rw [hs]
    norm_num [maskLastDim, maskSecondLastDim, chunks, chunksFuel, maskFilter, exData9,
      NArr.ndim, List.filterMap_cons, List.filterMap_nil]
  · rw [hs]
    norm_num [maskLastDim, maskSecondLastDim, chunks, chunksFuel, maskFilter, exData9,
      NArr.ndim, List.filterMap_cons, List.filterMap_nil]

theorem unit_rule_deg {α : Type} [LinearOrderedField α] [FloorRing α] (piA : α) :
    unit_rule piA "degrees" = .ok (fun x => x) := rfl

theorem lonlat_calc_eval {α : Type} [LinearOrderedField α] [FloorRing α]
    (piA : α) (gd : PyDict α) (la lo : List α) (uy ux : String) (fy fx : α → α)
    (hc : construct_dim gd = .ok (la, lo))
    (hyu : dictGetStr gd "yunits" = .ok uy) (hxu : dictGetStr gd "xunits" = .ok ux)
    (hfy : unit_rule piA uy = .ok fy) (hfx : unit_rule piA ux = .ok fx) :
    lonlat_calc_lat_lon piA gd =
      .ok (mesh_lat (la.map fy) (lo.map fx), mesh_lon (la.map fy) (lo.map fx)) := by
  unfold lonlat_calc_lat_lon convert_to_deg
  rw [hc]
  simp only [exceptBind_ok]
  rw [hyu]
  simp only [exceptBind_ok]
  rw [hxu]
  simp only [exceptBind_ok]
  rw [hfy, hfx]
  simp only [exceptBind_ok]

theorem structured_box_keeps_other_keys :
    ∀ (gd : PyDict ℚ) (data : NArr ℚ) (w n e s : ℚ) (la lo : List ℚ),
      construct_dim gd = .ok (la, lo) →
      ∀ (sliced : NArr ℚ) (ngd : PyDict ℚ),
        structured_box gd data [w, n, e, s] = .ok (sliced, ngd) →
        ∀ k : String, k ≠ "ysize" → k ≠ "xsize" → k ≠ "yvals" → k ≠ "xvals" →
          k ≠ "yfirst" → k ≠ "yinc" → k ≠ "xfirst" → k ≠ "xinc" →
          dictFind ngd k = dictFind gd k := by
  intro gd data w n e s la lo h sliced ngd heq k h1 h2 h3 h4 h5 h6 h7 h8
  unfold structured_box at heq
  rw [h] at heq
  simp only [exceptBind_ok] at heq
  rw [if_pos (show ([w, n, e, s].length = 4) from rfl)] at heq
  simp only [Except.ok.injEq, Prod.mk.injEq] at heq
  obtain ⟨-, hngd⟩ := heq
  rw [← hngd]
  rw [dictFind_pop, if_neg h8, dictFind_pop, if_neg h7, dictFind_pop, if_neg h6,
      dictFind_pop, if_neg h5, dictFind_set, if_neg h4, dictFind_set, if_neg h3,
      dictFind_set, if_neg h2, dictFind_set, if_neg h1]

/-- C3 is a code bug: slicing the regular scenario grid with a box that
keeps 4 points succeeds in `_structured_box`, but the returned
descriptor has `yfirst`/`yinc`/`xfirst`/`xinc` removed while keeping
`gridtype = 'lonlat'`; rebuilding through the factory therefore cannot
reconstruct any grid: the spec-modelled `GridBuilder` (section 4.2)
rejects the descriptor with `MissingField: yfirst` — and even without
that validation, `LonLatGrid._calc_single_dim` (lonlat.py:58-66) would
raise `KeyError: 'yfirst'` on the rebuilt grid, because it derives axes
exclusively from the `first`/`size`/`inc` fields. The round trip of the
claim never produces a lat/lon field to compare. -/
theorem C3_code_evaluation :
    lonlatbox (0:ℚ) exRegGrid exData9 [10, 51, 21/2, 50] =
      .error (.valueError "MissingField: yfirst") := by
  have hcalc : calc_lat_lon (0:ℚ) exRegGrid =
      .ok (mesh_lat [50, 51, 52] [10, 21/2, 11], mesh_lon [50, 51, 52] [10, 21/2, 11]) := by
    show lonlat_calc_lat_lon (0:ℚ) exRegDict = _
    rw [lonlat_calc_eval 0 exRegDict [50, 51, 52] [10, 21/2, 11] "degrees" "degrees"
      (fun x => x) (fun x => x) exRegDict_construct rfl rfl rfl rfl]
    simp [List.map_id']
  obtain ⟨S, NGD, heq, -, -, -, -, -, hyf, -, -, -⟩ :=
    structured_box_general exRegDict exData9 10 51 (21/2) 50 _ _ exRegDict_construct
  have hgt : dictFind NGD "gridtype" = some (.str "lonlat") := by
    rw [structured_box_keeps_other_keys exRegDict exData9 10 51 (21/2) 50 _ _
      exRegDict_construct S NGD heq "gridtype" (by decide) (by decide) (by decide) (by decide)
      (by decide) (by decide) (by decide) (by decide)]
    rfl
  have hbuild : build_grid NGD = .error (.valueError "MissingField: yfirst") := by
    unfold build_grid
    rw [show dictGetStr NGD "gridtype" = .ok "lonlat" from by
      unfold dictGetStr dictGet
      rw [hgt]]
    simp only [exceptBind_ok]
    rw [show (required_fields GridVariant.lonlat).find? (fun k => (dictFind NGD k).isNone) =
        some "yfirst" from by
      unfold required_fields
      rw [List.find?_cons_of_pos _ (by rw [hyf]; rfl)]]
    rfl
  show grid_lonlatbox (0:ℚ) exRegGrid exData9 [10, 51, 21/2, 50] false = _
  unfold grid_lonlatbox
  rw [hcalc]
  simp only [exceptBind_ok]
  rw [if_neg (fun hne => hne rfl)]
  rw [show exRegGrid.grid_dict = exRegDict from rfl]
  simp only [Bool.false_eq_true, if_false]
  rw [heq]
  simp only [exceptBind_ok]
  rw [hbuild]
  rfl

/-- Axes of the 1×1 curvilinear example grid. -/
theorem exCurvDict_construct : construct_dim exCurvDict = .ok ([0], [0]) := by
  have hy := calc_single_dim_eval (α := ℚ) exCurvDict "y" 0 1 1 1 rfl rfl rfl
    (by norm_num) (by norm_num)
  have hx := calc_single_dim_eval (α := ℚ) exCurvDict "x" 0 1 1 1 rfl rfl rfl
    (by norm_num) (by norm_num)
  refine construct_dim_eval _ _ _ ?_ ?_
  · rw [hy]
    norm_num [List.range_succ]
  · rw [hx]
    norm_num [List.range_succ]

/-- The lat/lon field of the 1×1 curvilinear example grid. -/
theorem exCurvGrid_calc :
    calc_lat_lon (0:ℚ) exCurvGrid = .ok (⟨[1, 1], [50]⟩, ⟨[1, 1], [10]⟩) := by
  show curv_calc_lat_lon exCurvDict = _
  unfold curv_calc_lat_lon
  rw [exCurvDict_construct]
  simp only [exceptBind_ok]
  rw [show dictGetArr (α := ℚ) exCurvDict "yvals" = .ok [50] from rfl]
  simp only [exceptBind_ok]
  rw [show dictGetArr (α := ℚ) exCurvDict "xvals" = .ok [10] from rfl]
  simp only [exceptBind_ok]
  rw [if_pos (by constructor <;> rfl)]
  rfl

/-- A shape-mismatched `interpolate` call fails with `IndexError` from
the argument-less `str.format`, for every order and collaborators. -/
theorem interp_mismatch_eval :
    ∀ (order : ℤ)
      (interpF : List (List ℚ) → List ℚ → List ℚ → NArr ℚ → NArr ℚ → ℤ → List (List ℚ))
      (griddataF : NArr ℚ → List ℚ → NArr ℚ → String → List ℚ),
      interpolate (0:ℚ) exCurvGrid (⟨[2, 2], [1, 2, 3, 4]⟩ : NArr ℚ) exCurvGrid order
          interpF griddataF =
        .error (.indexError "Replacement index 0 out of range") := by
  intro order interpF griddataF
  unfold interpolate
  rw [exCurvGrid_calc]
  simp only [exceptBind_ok]
  rw [if_pos (by decide)]
  rfl

/-- C2 is a code bug: on a trailing-dimension mismatch, grid.py:303-306
raises `ValueError('The last \x7b0:d\x7d dimensions …'.format())`, and
the argument-less `format` call on a template with a positional
placeholder itself raises `IndexError` — so the caller sees an
`IndexError` from the message formatting, not the intended
ShapeMismatch `ValueError`. (The failure does occur before any
remapping, as the claim states.) -/
theorem C2_code_evaluation :
    ∀ (order : ℤ)
      (interpF : List (List ℚ) → List ℚ → List ℚ → NArr ℚ → NArr ℚ → ℤ → List (List ℚ))
      (griddataF : NArr ℚ → List ℚ → NArr ℚ → String → List ℚ),
      interpolate (0:ℚ) exCurvGrid (⟨[2, 2], [1, 2, 3, 4]⟩ : NArr ℚ) exCurvGrid order
          interpF griddataF =
        .error (.indexError "Replacement index 0 out of range") ∧
      ∀ msg, interpolate (0:ℚ) exCurvGrid (⟨[2, 2], [1, 2, 3, 4]⟩ : NArr ℚ) exCurvGrid order
          interpF griddataF ≠ .error (.valueError msg) := by
  intro order interpF griddataF
  refine ⟨interp_mismatch_eval order interpF griddataF, fun msg h => ?_⟩
  rw [interp_mismatch_eval order interpF griddataF] at h
  exact absurd (Except.error.inj h) (by simp)

/-- A longitude that is already at most 180 is left unchanged by the
wrap loop. -/
theorem wrapLon_eval (x : ℚ) (n : ℤ) (hn : (⌈(x - 180) / 360⌉ : ℤ) = n) (hn0 : n ≤ 0) :
    wrapLon x = x := by
  unfold wrapLon
  rw [hn, Int.toNat_of_nonpos hn0]
  rfl

/-- `normalize_lat_lon` is the identity on a 1×1 field whose longitude
is already in range. -/
theorem normalize_1x1 (a b : ℚ) (x : ℚ) (hb : wrapLon b = b) :
    normalize_lat_lon (⟨[1, 1], [a]⟩ : NArr ℚ) ⟨[1, 1], [b]⟩ (some ⟨[1, 1], [x]⟩) =
      .ok (⟨[1, 1], [a]⟩, ⟨[1, 1], [b]⟩, some ⟨[1, 1], [x]⟩) := by
  unfold normalize_lat_lon
  rw [show ([b].map wrapLon) = [b] from by rw [List.map_cons, List.map_nil, hb]]
  rfl

/-- Counterexample to C7 as stated: `interpolate` with `order = 2` on
the 1×1 curvilinear grid completes the structured remapping path and
returns a remapped result — no `UnsupportedInterpolationOrder` (nor any
other error) is raised for an order outside {0, 1}. -/
theorem C7_counterexample :
    interpolate (0:ℚ) exCurvGrid exData1 exCurvGrid 2
      (fun _ _ _ _ _ _ => [[99]]) (fun _ _ _ _ => [0]) = .ok ⟨[1, 1], [99]⟩ := by
  unfold interpolate
  rw [exCurvGrid_calc]
  simp only [exceptBind_ok]
  rw [if_neg (fun hne => hne rfl)]
  rw [show exData1 = (⟨[1, 1], [7]⟩ : NArr ℚ) from rfl]
  rw [normalize_1x1 50 10 7 (wrapLon_eval 10 0 (by norm_num) (by norm_num))]
  simp only [exceptBind_ok]
  have hn2 : normalize_lat_lon (⟨[1, 1], [50]⟩ : NArr ℚ) ⟨[1, 1], [10]⟩ none =
      .ok (⟨[1, 1], [50]⟩, ⟨[1, 1], [10]⟩, none) := by
    unfold normalize_lat_lon
    rw [show ([10].map wrapLon) = [(10:ℚ)] from by
      rw [List.map_cons, List.map_nil, wrapLon_eval 10 0 (by norm_num) (by norm_num)]]
    rfl
  rw [hn2]
  simp only [exceptBind_ok]
  rw [if_neg (by decide)]
  rfl

/-- `_interpolate_unstructured` treats every order other than 1 exactly
as order 0 (`method='nearest'`). -/
theorem interp_unstr_order_ne_one (lenC : ℕ) (data slat slon tlat tlon : NArr ℚ)
    (order : ℤ) (gF : NArr ℚ → List ℚ → NArr ℚ → String → List ℚ) (h : order ≠ 1) :
    interpolate_unstructured lenC data slat slon tlat tlon order gF =
      interpolate_unstructured lenC data slat slon tlat tlon 0 gF := by
  unfold interpolate_unstructured
  rw [show (order == 1) = false from by simpa using h,
      show ((0:ℤ) == 1) = false from by decide]

/-- Errors of `_interpolate_unstructured` do not depend on the order. -/
theorem interp_unstr_error_order (lenC : ℕ) (data slat slon tlat tlon : NArr ℚ)
    (order order' : ℤ) (gF : NArr ℚ → List ℚ → NArr ℚ → String → List ℚ) (e : PyError)
    (h : interpolate_unstructured lenC data slat slon tlat tlon order gF = .error e) :
    interpolate_unstructured lenC data slat slon tlat tlon order' gF = .error e := by
  unfold interpolate_unstructured at h ⊢
  dsimp only at h ⊢
  cases h1 : np_concatenate_axis1 (⟨[slat.flat.length], slat.flat⟩ : NArr ℚ)
      ⟨[slon.flat.length], slon.flat⟩ with
  | error e1 =>
    rw [h1] at h
    simp only [exceptBind_error] at h ⊢
    exact h
  | ok sc =>
    rw [h1] at h
    simp only [exceptBind_ok] at h ⊢
    cases h2 : np_concatenate_axis1 (⟨[tlat.flat.length], tlat.flat⟩ : NArr ℚ)
        ⟨[tlon.flat.length], tlon.flat⟩ with
    | error e2 =>
      rw [h2] at h
      simp only [exceptBind_error] at h ⊢
      exact h
    | ok tc =>
      rw [h2] at h
      simp only [exceptBind_ok] at h
      exact absurd h (by simp)

/-- Errors of `Grid.interpolate` do not depend on the order. -/
theorem interp_error_order (piA : ℚ) (g : PGrid ℚ) (data : NArr ℚ) (og : PGrid ℚ)
    (order order' : ℤ)
    (iF : List (List ℚ) → List ℚ → List ℚ → NArr ℚ → NArr ℚ → ℤ → List (List ℚ))
    (gF : NArr ℚ → List ℚ → NArr ℚ → String → List ℚ) (e : PyError)
    (h : interpolate piA g data og order iF gF = .error e) :
    interpolate piA g data og order' iF gF = .error e := by
  unfold interpolate at h ⊢
  cases hc : calc_lat_lon piA g with
  | error e1 =>
    rw [hc] at h
    simp only [exceptBind_error] at h ⊢
    exact h
  | ok src =>
    rw [hc] at h
    simp only [exceptBind_ok] at h ⊢
    by_cases hsh : data.shape.drop (data.ndim - len_coords g) ≠ src.1.shape
    · rw [if_pos hsh] at h ⊢
      exact h
    · rw [if_neg hsh] at h ⊢
      cases hn : normalize_lat_lon src.1 src.2 (some data) with
      | error e2 =>
        rw [hn] at h
        simp only [exceptBind_error] at h ⊢
        exact h
      | ok nsrc =>
        rw [hn] at h
        simp only [exceptBind_ok] at h ⊢
        cases ht : calc_lat_lon piA og with
        | error e3 =>
          rw [ht] at h
          simp only [exceptBind_error] at h ⊢
          exact h
        | ok trg =>
          rw [ht] at h
          simp only [exceptBind_ok] at h ⊢
          cases hn2 : normalize_lat_lon trg.1 trg.2 none with
          | error e4 =>
            rw [hn2] at h
            simp only [exceptBind_error] at h ⊢
            exact h
          | ok ntrg =>
            rw [hn2] at h
            simp only [exceptBind_ok] at h ⊢
            by_cases hmin : min (len_coords g) (len_coords og) = 1
            · rw [if_pos hmin] at h ⊢
              exact interp_unstr_error_order _ _ _ _ _ _ order order' gF e h
            · rw [if_neg hmin] at h
              exact absurd h (by simp)

/-- C7 (amended): the repository performs no interpolation-order
validation and raises no `UnsupportedInterpolationOrder`: on the
unstructured path every order other than 1 selects `method='nearest'`
and behaves exactly like order 0, the structured path forwards the
order unchanged to the external `basemap.interp` collaborator, and
whether `interpolate` raises (and which error) is independent of the
order. -/
theorem C7_amended :
    (∀ (lenC : ℕ) (data slat slon tlat tlon : NArr ℚ) (order : ℤ)
      (gF : NArr ℚ → List ℚ → NArr ℚ → String → List ℚ), order ≠ 1 →
      interpolate_unstructured lenC data slat slon tlat tlon order gF =
        interpolate_unstructured lenC data slat slon tlat tlon 0 gF) ∧
    (∀ (piA : ℚ) (g : PGrid ℚ) (data : NArr ℚ) (og : PGrid ℚ) (order order' : ℤ)
      (iF : List (List ℚ) → List ℚ → List ℚ → NArr ℚ → NArr ℚ → ℤ → List (List ℚ))
      (gF : NArr ℚ → List ℚ → NArr ℚ → String → List ℚ) (e : PyError),
      interpolate piA g data og order iF gF = .error e →
      interpolate piA g data og order' iF gF = .error e) := by
  exact ⟨fun lenC data slat slon tlat tlon order gF h =>
    interp_unstr_order_ne_one lenC data slat slon tlat tlon order gF h,
    fun piA g data og order order' iF gF e h =>
    interp_error_order piA g data og order order' iF gF e h⟩

/-- Witness for C7: order 2 behaves as order 0 on the unstructured
path, and a concrete error of `interpolate` at order 2 recurs unchanged
at order 5. -/
theorem C7_witness :
    ((2:ℤ) ≠ 1) ∧
    interpolate_unstructured 1 exData1 (⟨[1], [50]⟩ : NArr ℚ) ⟨[1], [10]⟩
        ⟨[1], [50]⟩ ⟨[1], [10]⟩ 2 (fun _ _ _ _ => [0]) =
      interpolate_unstructured 1 exData1 ⟨[1], [50]⟩ ⟨[1], [10]⟩
        ⟨[1], [50]⟩ ⟨[1], [10]⟩ 0 (fun _ _ _ _ => [0]) ∧
    interpolate (0:ℚ) exCurvGrid (⟨[2, 2], [1, 2, 3, 4]⟩ : NArr ℚ) exCurvGrid 2
        (fun _ _ _ _ _ _ => [[99]]) (fun _ _ _ _ => [0]) =
      .error (.indexError "Replacement index 0 out of range") ∧
    interpolate (0:ℚ) exCurvGrid (⟨[2, 2], [1, 2, 3, 4]⟩ : NArr ℚ) exCurvGrid 5
        (fun _ _ _ _ _ _ => [[99]]) (fun _ _ _ _ => [0]) =
      .error (.indexError "Replacement index 0 out of range") := by
  have h2 := interp_mismatch_eval 2 (fun _ _ _ _ _ _ => [[99]]) (fun _ _ _ _ => [0])
  exact ⟨by decide,
    C7_amended.1 1 exData1 ⟨[1], [50]⟩ ⟨[1], [10]⟩ ⟨[1], [50]⟩ ⟨[1], [10]⟩ 2
      (fun _ _ _ _ => [0]) (by decide),
    h2,
    C7_amended.2 0 exCurvGrid ⟨[2, 2], [1, 2, 3, 4]⟩ exCurvGrid 2 5
      (fun _ _ _ _ _ _ => [[99]]) (fun _ _ _ _ => [0]) _ h2⟩

/-- Every grid the builder returns starts with an empty lat/lon cache. -/
theorem build_grid_cache_none (gd : PyDict ℚ) (g : PGrid ℚ)
    (h : build_grid gd = .ok g) : g.cache = none := by
  unfold build_grid at h
  cases hgt : dictGetStr gd "gridtype" with
  | error e =>
    rw [hgt] at h
    simp only [exceptBind_error] at h
    exact absurd h (by simp)
  | ok gt =>
    rw [hgt] at h
    simp only [exceptBind_ok] at h
    split at h
    all_goals
      first
      | (exact absurd h (by simp [exceptBind_error]))
      | (split at h
         · exact absurd h (by simp)
         · rw [← Except.ok.inj h])

theorem box_bind_ok (B : Except PyError (NArr ℚ × PyDict ℚ)) (d' : NArr ℚ) (g' : PGrid ℚ)
    (h : (do
        let y ← B
        let sliced_grid ← build_grid y.2
        Except.ok (y.1, sliced_grid)) = Except.ok (d', g')) :
    g'.cache = none ∧ ∃ ngd, build_grid ngd = .ok g' := by
  cases hb : B with
  | error e =>
    rw [hb] at h
    simp only [exceptBind_error] at h
    exact absurd h (by simp)
  | ok r =>
    rw [hb] at h
    simp only [exceptBind_ok] at h
    cases hbg : build_grid r.2 with
    | error e =>
      rw [hbg] at h
      simp only [exceptBind_error] at h
      exact absurd h (by simp)
    | ok gg =>
      rw [hbg] at h
      simp only [exceptBind_ok, Except.ok.injEq, Prod.mk.injEq] at h
      obtain ⟨-, hg⟩ := h
      subst hg
      exact ⟨build_grid_cache_none r.2 gg hbg, r.2, hbg⟩

theorem grid_lonlatbox_ok (piA : ℚ) (g : PGrid ℚ) (data : NArr ℚ) (box : List ℚ)
    (u : Bool) (d' : NArr ℚ) (g' : PGrid ℚ)
    (h : grid_lonlatbox piA g data box u = .ok (d', g')) :
    g'.cache = none ∧ ∃ ngd, build_grid ngd = .ok g' := by
  unfold grid_lonlatbox at h
  cases hc : calc_lat_lon piA g with
  | error e =>
    rw [hc] at h
    simp only [exceptBind_error] at h
    exact absurd h (by simp)
  | ok src =>
    rw [hc] at h
    simp only [exceptBind_ok] at h
    by_cases hsh : data.shape.drop (data.ndim - len_coords g) ≠ src.1.shape
    · rw [if_pos hsh] at h
      exact absurd h (by simp)
    · rw [if_neg hsh] at h
      cases u with
      | false =>
        rw [if_neg (by simp)] at h
        exact box_bind_ok _ _ _ h
      | true =>
        rw [if_pos rfl] at h
        exact box_bind_ok _ _ _ h

/-- C9: `interpolate` and `lonlatbox` never mutate the source grid — in
particular they neither read nor write its lat/lon cache (both compute
`_calc_lat_lon()` afresh, so their results are invariant under any cache
state), and the grid returned by a successful `lonlatbox` is freshly
constructed by `GridBuilder` from the new descriptor, with an empty
cache — never the original grid object. Input data is passed by value
in this embedding, so it is unchanged by construction. -/
theorem C9_frame :
    (∀ (v : GridVariant) (gd : PyDict ℚ) (c1 c2 : Option (NArr ℚ × NArr ℚ)) (piA : ℚ)
      (data : NArr ℚ) (box : List ℚ),
      lonlatbox piA ⟨v, gd, c1⟩ data box = lonlatbox piA ⟨v, gd, c2⟩ data box) ∧
    (∀ (v : GridVariant) (gd : PyDict ℚ) (c1 c2 : Option (NArr ℚ × NArr ℚ)) (piA : ℚ)
      (data : NArr ℚ) (og : PGrid ℚ) (order : ℤ)
      (iF : List (List ℚ) → List ℚ → List ℚ → NArr ℚ → NArr ℚ → ℤ → List (List ℚ))
      (gF : NArr ℚ → List ℚ → NArr ℚ → String → List ℚ),
      interpolate piA ⟨v, gd, c1⟩ data og order iF gF =
        interpolate piA ⟨v, gd, c2⟩ data og order iF gF) ∧
    (∀ (piA : ℚ) (g : PGrid ℚ) (data : NArr ℚ) (box : List ℚ) (d' : NArr ℚ) (g' : PGrid ℚ),
      lonlatbox piA g data box = .ok (d', g') →
      g'.cache = none ∧ ∃ ngd, build_grid ngd = .ok g') := by
  refine ⟨?_, ?_, ?_⟩
  · intro v gd c1 c2 piA data box
    cases v <;> rfl
  · intro v gd c1 c2 piA data og order iF gF
    cases v <;> rfl
  · intro piA g data box d' g' h
    obtain ⟨v, gd, c⟩ := g
    cases v
    · exact grid_lonlatbox_ok piA ⟨.lonlat, gd, c⟩ data box false d' g' h
    · exact grid_lonlatbox_ok piA ⟨.curvilinear, gd, c⟩ data box true d' g' h
    · exact grid_lonlatbox_ok piA ⟨.unstructured, gd, c⟩ data box true d' g' h


/-- A concrete successful box slice on the 1×1 curvilinear grid. -/
theorem exCurv_lonlatbox_run :
    lonlatbox (0:ℚ) exCurvGrid exData1 [9, 51, 11, 49] =
      .ok (⟨[1], [7]⟩,
        { variant := .unstructured,
          grid_dict := dictUpdate unstr_defaults
            [("gridtype", .str "unstructured"),
             ("xlongname", .str "longitude"), ("xname", .str "lon"),
             ("xunits", .str "degrees"),
             ("ylongname", .str "latitude"), ("yname", .str "lat"),
             ("yunits", .str "degrees"),
             ("gridsize", .num ((1:ℕ):ℚ)), ("yvals", .arr [50]), ("xvals", .arr [10])],
          cache := none }) := by
  show grid_lonlatbox (0:ℚ) exCurvGrid exData1 [9, 51, 11, 49] true = _
  unfold grid_lonlatbox
  rw [exCurvGrid_calc]
  simp only [exceptBind_ok]
  rw [if_neg (fun hne => hne rfl)]
  have hbox : unstructured_box 2 (⟨[1, 1], [50]⟩ : NArr ℚ) ⟨[1, 1], [10]⟩ exData1
      [9, 51, 11, 49] = .ok (⟨[1], [7]⟩,
        [("gridtype", .str "unstructured"),
         ("xlongname", .str "longitude"), ("xname", .str "lon"),
         ("xunits", .str "degrees"),
         ("ylongname", .str "latitude"), ("yname", .str "lat"),
         ("yunits", .str "degrees"),
         ("gridsize", .num ((1:ℕ):ℚ)), ("yvals", .arr [50]), ("xvals", .arr [10])]) := by
    unfold unstructured_box
    rw [if_neg (fun hne => hne rfl)]
    rw [if_pos (show ([(9:ℚ), 51, 11, 49].length = 4) from rfl)]
    norm_num [min_def, max_def, maskTrailing, maskFilter, chunks, chunksFuel,
      dictSet, dictFind, NArr.ndim, List.find?, List.filterMap_cons, List.filterMap_nil,
      exData1]
    simp
  rw [show len_coords exCurvGrid = 2 from rfl, hbox]
  simp only [exceptBind_ok]
  rfl

/-- Witness for C9: a successful curvilinear box slice returns a fresh
builder-made grid, and the run is invariant under the source cache. -/
theorem C9_witness :
    (∃ d' g', lonlatbox (0:ℚ) exCurvGrid exData1 [9, 51, 11, 49] = .ok (d', g') ∧
      g'.cache = none ∧ ∃ ngd, build_grid ngd = .ok g') ∧
    lonlatbox (0:ℚ) ⟨.curvilinear, exCurvDict, some (⟨[1, 1], [50]⟩, ⟨[1, 1], [10]⟩)⟩
        exData1 [9, 51, 11, 49] =
      lonlatbox (0:ℚ) ⟨.curvilinear, exCurvDict, none⟩ exData1 [9, 51, 11, 49] := by
  refine ⟨⟨_, _, exCurv_lonlatbox_run,
    C9_frame.2.2 0 exCurvGrid exData1 [9, 51, 11, 49] _ _ exCurv_lonlatbox_run⟩,
    C9_frame.1 .curvilinear exCurvDict (some (⟨[1, 1], [50]⟩, ⟨[1, 1], [10]⟩)) none 0
      exData1 [9, 51, 11, 49]⟩

theorem wrapFuel_le (n : ℕ) : ∀ (x : ℚ), (⌈(x - 180) / 360⌉).toNat ≤ n → wrapFuel n x ≤ 180 := by
  induction n with
  | zero =>
    intro x h
    have h0 : (⌈(x - 180) / 360⌉ : ℤ) ≤ 0 := Int.toNat_eq_zero.mp (Nat.le_zero.mp h)
    have h1 : (x - 180) / 360 ≤ (0 : ℚ) := by exact_mod_cast Int.ceil_le.mp h0
    have h2 : x ≤ 180 := by
      have := (div_nonpos_iff.mp h1)
      rcases this with ⟨ha, _⟩ | ⟨ha, hb⟩
      · linarith
      · linarith
    simpa [wrapFuel] using h2
  | succ n ih =>
    intro x h
    show (if x > 180 then wrapFuel n (x - 360) else x) ≤ 180
    by_cases hx : x > 180
    · rw [if_pos hx]
      apply ih
      have hpos : (0 : ℤ) < ⌈(x - 180) / 360⌉ := by
        apply Int.ceil_pos.mpr
        apply div_pos (by linarith) (by norm_num)
      have hshift : (⌈(x - 360 - 180) / 360⌉ : ℤ) = ⌈(x - 180) / 360⌉ - 1 := by
        have : (x - 360 - 180) / 360 = (x - 180) / 360 - 1 := by ring
        rw [this, Int.ceil_sub_one]
      rw [hshift]
      omega
    · rw [if_neg hx]
      linarith

theorem wrapLon_le_180 (x : ℚ) : wrapLon x ≤ 180 :=
  wrapFuel_le _ x le_rfl

theorem wrapLon_of_le (x : ℚ) (h : x ≤ 180) : wrapLon x = x := by
  apply wrapLon_eval x ⌈(x - 180) / 360⌉ rfl
  apply Int.ceil_le.mpr
  push_cast
  apply div_nonpos_of_nonpos_of_nonneg <;> linarith

theorem wrapLon_idem (x : ℚ) : wrapLon (wrapLon x) = wrapLon x :=
  wrapLon_of_le _ (wrapLon_le_180 x)

theorem getD_mem_or {β : Type} (l : List β) (t : ℕ) (d : β) :
    l.getD t d ∈ l ∨ l.getD t d = d := by
  by_cases h : t < l.length
  · left
    rw [List.getD_eq_getElem l d h]
    exact List.getElem_mem h
  · right
    rw [List.getD_eq_default]
    omega

theorem getD_ext {β : Type} (xs ys : List β) (d : β) (hl : xs.length = ys.length)
    (h : ∀ k, k < xs.length → xs.getD k d = ys.getD k d) : xs = ys := by
  apply List.ext_getElem hl
  intro k h1 h2
  have hk := h k h1
  rwa [List.getD_eq_getElem xs d h1, List.getD_eq_getElem ys d h2] at hk

theorem map_getD_range {β : Type} (l : List β) (d : β) :
    (List.range l.length).map (fun k => l.getD k d) = l := by
  apply getD_ext _ _ d
  · simp
  · intro k hk
    simp only [List.length_map, List.length_range] at hk
    rw [List.getD_eq_getElem _ d, List.getD_eq_getElem _ d hk]
    · simp [List.getD, List.getElem?_eq_getElem hk]
    · simpa using hk

theorem flatten_getD_uniform {β : Type} (rws : List (List β)) (w : ℕ)
    (hl : ∀ r ∈ rws, r.length = w) (d : β) :
    ∀ (i j : ℕ), j < w →
      rws.flatten.getD (i * w + j) d = (rws.getD i []).getD j d := by
  induction rws with
  | nil => intro i j _; simp [List.getD]
  | cons r rs ih =>
    intro i j hj
    have hr : r.length = w := hl r (by simp)
    match i with
    | 0 =>
      simp only [List.flatten_cons, Nat.zero_mul, Nat.zero_add, List.getD_cons_zero]
      exact List.getD_append r rs.flatten d j (by omega)
    | i + 1 =>
      simp only [List.flatten_cons, List.getD_cons_succ]
      have hidx : (i + 1) * w + j = r.length + (i * w + j) := by
        rw [hr]; ring
      rw [hidx, List.getD_append_right r rs.flatten d _ (by omega)]
      have : r.length + (i * w + j) - r.length = i * w + j := by omega
      rw [this]
      exact ih (fun x hx => hl x (by simp [hx])) i j hj

theorem mem_chunksFuel {β : Type} (fuel : ℕ) :
    ∀ (k : ℕ) (l b : List β), b ∈ chunksFuel fuel k l → ∀ x ∈ b, x ∈ l := by
  induction fuel with
  | zero => intro k l b hb; simp [chunksFuel] at hb
  | succ n ih =>
    intro k l b hb x hx
    match l with
    | [] => simp [chunksFuel] at hb
    | y :: t =>
      simp only [chunksFuel, List.mem_cons] at hb
      rcases hb with hb | hb
      · exact List.mem_of_mem_take (hb ▸ hx)
      · exact List.mem_of_mem_drop (ih k _ b hb x hx)

theorem mem_chunks {β : Type} (k : ℕ) (l b : List β) (hb : b ∈ chunks k l) :
    ∀ x ∈ b, x ∈ l := by
  unfold chunks at hb
  by_cases hk : k = 0
  · simp [hk] at hb
  · rw [if_neg hk] at hb
    exact mem_chunksFuel l.length k l b hb

theorem chunksFuel_nil {β : Type} (fuel k : ℕ) : chunksFuel fuel k ([] : List β) = [] := by
  cases fuel <;> rfl

theorem chunks_self {β : Type} (l : List β) (hl : l ≠ []) : chunks l.length l = [l] := by
  unfold chunks
  rw [if_neg (by simpa using hl)]
  match l, hl with
  | y :: t, _ =>
    show (y :: t).take (y :: t).length :: chunksFuel t.length (y :: t).length
        ((y :: t).drop (y :: t).length) = [y :: t]
    rw [List.take_length, List.drop_length, chunksFuel_nil]

section ArgsortLemmas

instance idxLe_total (vals : List ℚ) : IsTotal ℕ (idxLe vals) := by
  constructor
  intro i j
  rcases lt_trichotomy (vals.getD i 0) (vals.getD j 0) with h | h | h
  · exact Or.inl (Or.inl h)
  · rcases Nat.le_total i j with hij | hij
    · exact Or.inl (Or.inr ⟨h, hij⟩)
    · exact Or.inr (Or.inr ⟨h.symm, hij⟩)
  · exact Or.inr (Or.inl h)

instance idxLe_trans (vals : List ℚ) : IsTrans ℕ (idxLe vals) := by
  constructor
  intro i j k h1 h2
  rcases h1 with h1 | ⟨h1e, h1i⟩
  · rcases h2 with h2 | ⟨h2e, _⟩
    · exact Or.inl (h1.trans h2)
    · exact Or.inl (h2e ▸ h1)
  · rcases h2 with h2 | ⟨h2e, h2i⟩
    · exact Or.inl (h1e ▸ h2)
    · exact Or.inr ⟨h1e.trans h2e, h1i.trans h2i⟩

theorem argsortList_length (l : List ℚ) : (argsortList l).length = l.length := by
  unfold argsortList
  rw [List.length_insertionSort, List.length_range]

theorem argsortList_mem_lt (l : List ℚ) (x : ℕ) (hx : x ∈ argsortList l) : x < l.length := by
  unfold argsortList at hx
  have := (List.perm_insertionSort (idxLe l) (List.range l.length)).mem_iff.mp hx
  exact List.mem_range.mp this

theorem argsortList_getD_lt (l : List ℚ) (i : ℕ) (hi : i < l.length) :
    (argsortList l).getD i 0 < l.length := by
  have hlen : i < (argsortList l).length := by rwa [argsortList_length]
  rw [List.getD_eq_getElem _ 0 hlen]
  exact argsortList_mem_lt l _ (List.getElem_mem hlen)

theorem argsortList_sorted (l : List ℚ) : List.Sorted (idxLe l) (argsortList l) :=
  List.sorted_insertionSort (idxLe l) (List.range l.length)

theorem argsortList_of_sorted (l : List ℚ) (h : List.Sorted (fun a b => a ≤ b) l) :
    argsortList l = List.range l.length := by
  unfold argsortList
  apply List.Sorted.insertionSort_eq
  rw [List.Sorted, List.pairwise_iff_getElem]
  intro i j hi hj hij
  simp only [List.getElem_range]
  have hi2 : i < l.length := by simpa using hi
  have hj2 : j < l.length := by simpa using hj
  have hle : l[i] ≤ l[j] := by
    rw [List.Sorted, List.pairwise_iff_getElem] at h
    exact h i j hi2 hj2 hij
  unfold idxLe
  rw [List.getD_eq_getElem l 0 hi2, List.getD_eq_getElem l 0 hj2]
  rcases lt_or_eq_of_le hle with hlt | heq
  · exact Or.inl hlt
  · exact Or.inr ⟨heq, le_of_lt hij⟩

theorem sort_apply_length (l : List ℚ) : (sort_apply l).length = l.length := by
  unfold sort_apply
  rw [List.length_map, argsortList_length]

theorem sort_apply_sorted (l : List ℚ) :
    List.Sorted (fun a b => a ≤ b) (sort_apply l) := by
  unfold sort_apply
  have h := argsortList_sorted l
  refine List.Pairwise.map _ ?_ h
  intro a b hab
  rcases hab with h1 | ⟨h1, _⟩
  · exact le_of_lt h1
  · exact le_of_eq h1

theorem sort_apply_of_sorted (l : List ℚ) (h : List.Sorted (fun a b => a ≤ b) l) :
    sort_apply l = l := by
  unfold sort_apply
  rw [argsortList_of_sorted l h, map_getD_range]

theorem mem_sort_apply (l : List ℚ) (x : ℚ) (hx : x ∈ sort_apply l) :
    x ∈ l ∨ x = 0 := by
  unfold sort_apply at hx
  rcases List.mem_map.mp hx with ⟨i, _, hix⟩
  rcases getD_mem_or l i 0 with hm | hd
  · exact Or.inl (hix ▸ hm)
  · exact Or.inr (hix ▸ hd)

end ArgsortLemmas

theorem flatten_length_uniform {β : Type} (rws : List (List β)) (w : ℕ)
    (hl : ∀ r ∈ rws, r.length = w) : rws.flatten.length = rws.length * w := by
  induction rws with
  | nil => simp
  | cons r rs ih =>
    simp only [List.flatten_cons, List.length_append, List.length_cons]
    rw [hl r (by simp), ih (fun x hx => hl x (by simp [hx]))]
    ring

theorem getD_map_range {β : Type} (n k : ℕ) (f : ℕ → β) (hk : k < n) (d : β) :
    ((List.range n).map f).getD k d = f k := by
  rw [List.getD_eq_getElem _ d (by simpa using hk)]
  simp

theorem npCol_mesh_lat (la lo : List ℚ) (j : ℕ) (hj : j < lo.length) :
    npCol (mesh_lat la lo) j = la := by
  unfold npCol mesh_lat
  show (List.range la.length).map
      (fun i => ((la.map (fun v => List.replicate lo.length v)).flatten).getD
        (i * lo.length + j) 0) = la
  rw [List.map_congr_left (g := fun i => la.getD i 0)]
  · exact map_getD_range la 0
  · intro i hi
    rw [flatten_getD_uniform _ lo.length (by
      intro r hr
      rcases List.mem_map.mp hr with ⟨v, _, hv⟩
      rw [← hv, List.length_replicate]) 0 i j hj]
    by_cases hil : i < la.length
    · rw [List.getD_eq_getElem _ [] (by simpa using hil), List.getElem_map,
        List.getD_eq_getElem _ 0 (by simpa using hj), List.getElem_replicate,
        List.getD_eq_getElem la 0 hil]
    · rw [List.getD_eq_default _ [] (by simpa using hil),
        List.getD_eq_default la 0 (by omega)]
      simp

theorem npRow_mesh_lon (la lo : List ℚ) (i : ℕ) (hi : i < la.length) :
    npRow (mesh_lon la lo) i = lo := by
  unfold npRow mesh_lon
  show (List.range lo.length).map
      (fun j => ((la.map (fun _ => lo)).flatten).getD (i * lo.length + j) 0) = lo
  rw [List.map_congr_left (g := fun j => lo.getD j 0)]
  · exact map_getD_range lo 0
  · intro j hj
    have hj2 : j < lo.length := List.mem_range.mp hj
    rw [flatten_getD_uniform _ lo.length (by
      intro r hr
      rcases List.mem_map.mp hr with ⟨v, _, hv⟩
      rw [← hv]) 0 i j hj2]
    rw [List.getD_eq_getElem _ [] (by simpa using hi)]
    simp

theorem argsort_mesh_lat_axis0 (la lo : List ℚ) :
    npArgsort (mesh_lat la lo) 0 = .ok ⟨[la.length, lo.length],
      ((argsortList la).map (fun v => List.replicate lo.length v)).flatten⟩ := by
  show Except.ok (⟨[la.length, lo.length],
      ((List.range la.length).map (fun i => (List.range lo.length).map
        (fun j => (argsortList (npCol (mesh_lat la lo) j)).getD i 0))).flatten⟩ : NArr ℕ) = _
  congr 1
  congr 1
  congr 1
  rw [List.map_congr_left
    (g := fun i => List.replicate lo.length ((argsortList la).getD i 0))]
  · rw [show (fun i => List.replicate lo.length ((argsortList la).getD i 0)) =
        (fun v => List.replicate lo.length v) ∘ (fun i => (argsortList la).getD i 0)
      from rfl]
    rw [← List.map_map, ← argsortList_length la, map_getD_range]
  · intro i _
    rw [List.map_congr_left (g := fun _ => (argsortList la).getD i 0)]
    · simp [List.map_const']
    · intro j hj
      rw [npCol_mesh_lat la lo j (List.mem_range.mp hj)]

theorem argsort_mesh_lon_axis1 (la lo : List ℚ) :
    npArgsort (mesh_lon la lo) 1 = .ok ⟨[la.length, lo.length],
      (List.replicate la.length (argsortList lo)).flatten⟩ := by
  show Except.ok (⟨[la.length, lo.length],
      ((List.range la.length).map
        (fun i => argsortList (npRow (mesh_lon la lo) i))).flatten⟩ : NArr ℕ) = _
  congr 1
  congr 1
  congr 1
  rw [List.map_congr_left (g := fun _ => argsortList lo)]
  · simp [List.map_const']
  · intro i hi
    rw [npRow_mesh_lon la lo i (List.mem_range.mp hi)]

theorem ia_flat_getD {β : Type} (σ : List β) (d : β) (w i j : ℕ) (hj : j < w) :
    ((σ.map (fun v => List.replicate w v)).flatten).getD (i * w + j) d = σ.getD i d := by
  rw [flatten_getD_uniform _ w (by
    intro r hr
    rcases List.mem_map.mp hr with ⟨v, _, hv⟩
    rw [← hv, List.length_replicate]) d i j hj]
  by_cases hil : i < σ.length
  · rw [List.getD_eq_getElem _ [] (by simpa using hil), List.getElem_map,
      List.getD_eq_getElem _ d (by simpa using hj), List.getElem_replicate,
      List.getD_eq_getElem σ d hil]
  · rw [List.getD_eq_default _ [] (by simpa using hil),
      List.getD_eq_default σ d (by omega)]
    simp

theorem ja_flat_getD {β : Type} (τ : List β) (d : β) (h w i j : ℕ) (hτ : τ.length = w)
    (hi : i < h) (hj : j < w) :
    (((List.replicate h τ)).flatten).getD (i * w + j) d = τ.getD j d := by
  rw [flatten_getD_uniform _ w (by
    intro r hr
    rw [List.eq_of_mem_replicate hr, hτ]) d i j hj]
  rw [List.getD_eq_getElem _ [] (by simpa using hi), List.getElem_replicate]

theorem fancyIdx2_eval (a : NArr ℚ) (h w : ℕ) (σ τ : List ℕ)
    (hshape : a.shape = [h, w]) (hflat : a.flat.length = h * w)
    (hσ : σ.length = h) (hτ : τ.length = w) (hh : 0 < h) (hw : 0 < w) :
    fancyIdx2 a ⟨[h, w], (σ.map (fun v => List.replicate w v)).flatten⟩
        ⟨[h, w], (List.replicate h τ).flatten⟩ =
      ⟨[h, w], ((List.range h).map (fun i => (List.range w).map
        (fun j => a.flat.getD (σ.getD i 0 * w + τ.getD j 0) 0))).flatten⟩ := by
  obtain ⟨sh, fl⟩ := a
  simp only at hshape hflat ⊢
  subst hshape
  have hfl : fl ≠ [] := by
    intro hcon
    rw [hcon] at hflat
    simp at hflat
    rcases hflat with hc | hc <;> omega
  have hchunks : chunks (h * w) fl = [fl] := by
    rw [← hflat]
    exact chunks_self fl hfl
  have hiaLen : ((σ.map (fun v => List.replicate w v)).flatten).length = h * w := by
    rw [flatten_length_uniform _ w (by
      intro r hr
      rcases List.mem_map.mp hr with ⟨v, _, hv⟩
      rw [← hv, List.length_replicate]), List.length_map, hσ]
  show (⟨[h, w].take (2 - 2) ++ [h, w],
      ((chunks (h * w) fl).map (fun b =>
        ((List.range ((σ.map (fun v => List.replicate w v)).flatten).length).map
          (fun k => ((σ.map (fun v => List.replicate w v)).flatten).getD k 0 * w +
            ((List.replicate h τ).flatten).getD k 0)).map
          (fun t => b.getD t 0))).flatten⟩ : NArr ℚ) = _
  rw [hchunks, hiaLen]
  simp only [List.take_zero, List.nil_append, List.map_cons, List.map_nil,
    List.flatten_cons, List.flatten_nil, List.append_nil, List.map_map]
  refine congrArg _ ?_
  apply getD_ext _ _ (0 : ℚ)
  · rw [List.length_map, List.length_range,
      flatten_length_uniform _ w (by
        intro r hr
        rcases List.mem_map.mp hr with ⟨i, _, hi⟩
        rw [← hi, List.length_map, List.length_range]),
      List.length_map, List.length_range]
  · intro k hk
    rw [List.length_map, List.length_range] at hk
    have hj : k % w < w := Nat.mod_lt _ hw
    have hi : k / w < h := Nat.div_lt_of_lt_mul (by rw [Nat.mul_comm] at hk; exact hk)
    have hksplit : (k / w) * w + k % w = k := by
      rw [Nat.mul_comm]
      exact Nat.div_add_mod k w
    rw [getD_map_range _ k _ hk, Function.comp]
    rw [← hksplit, ia_flat_getD σ 0 w _ _ hj, ja_flat_getD τ 0 h w _ _ hτ hi hj]
    rw [flatten_getD_uniform _ w (by
      intro r hr
      rcases List.mem_map.mp hr with ⟨i, _, hi2⟩
      rw [← hi2, List.length_map, List.length_range]) 0 _ _ hj]
    rw [getD_map_range h _ _ hi, getD_map_range w _ _ hj]


theorem mesh_lat_flat_len (la lo : List ℚ) :
    (mesh_lat la lo).flat.length = la.length * lo.length := by
  show ((la.map (fun v => List.replicate lo.length v)).flatten).length = _
  rw [flatten_length_uniform _ lo.length (by
    intro r hr
    rcases List.mem_map.mp hr with ⟨v, _, hv⟩
    rw [← hv, List.length_replicate]), List.length_map]

theorem mesh_lon_flat_len (la lo : List ℚ) :
    (mesh_lon la lo).flat.length = la.length * lo.length := by
  show ((la.map (fun _ => lo)).flatten).length = _
  rw [flatten_length_uniform _ lo.length (by
    intro r hr
    rcases List.mem_map.mp hr with ⟨v, _, hv⟩
    rw [← hv]), List.length_map]

theorem fancy_mesh_lat (la lo : List ℚ) (τ : List ℕ) (Z : List ℚ)
    (hZ : Z.length = lo.length) (hτlen : τ.length = lo.length)
    (hτlt : ∀ x ∈ τ, x < lo.length) (hla : la ≠ []) (hlo : lo ≠ []) :
    fancyIdx2 (mesh_lat la lo)
        ⟨[la.length, lo.length],
          ((argsortList la).map (fun v => List.replicate lo.length v)).flatten⟩
        ⟨[la.length, lo.length], (List.replicate la.length τ).flatten⟩ =
      mesh_lat (sort_apply la) Z := by
  rw [fancyIdx2_eval (mesh_lat la lo) la.length lo.length _ _ rfl
    (mesh_lat_flat_len la lo) (argsortList_length la) hτlen
    (List.length_pos.mpr hla) (List.length_pos.mpr hlo)]
  show (⟨[la.length, lo.length], ((List.range la.length).map
      (fun i => (List.range lo.length).map (fun j =>
        ((la.map (fun v => List.replicate lo.length v)).flatten).getD
          ((argsortList la).getD i 0 * lo.length + τ.getD j 0) 0))).flatten⟩
    : NArr ℚ) =
    ⟨[(sort_apply la).length, Z.length],
      ((sort_apply la).map (fun v => List.replicate Z.length v)).flatten⟩
  rw [sort_apply_length la, hZ]
  refine congrArg _ ?_
  refine congrArg _ ?_
  rw [List.map_congr_left
    (g := fun i => List.replicate lo.length (la.getD ((argsortList la).getD i 0) 0))]
  · rw [show (fun i => List.replicate lo.length (la.getD ((argsortList la).getD i 0) 0)) =
        (fun v => List.replicate lo.length (la.getD v 0)) ∘ (fun i => (argsortList la).getD i 0)
      from rfl]
    rw [← List.map_map, ← argsortList_length la, map_getD_range]
    unfold sort_apply
    rw [List.map_map]
    rfl
  · intro i _
    rw [List.map_congr_left (g := fun _ => la.getD ((argsortList la).getD i 0) 0)]
    · rw [List.map_const', List.length_range]
    · intro j hj
      have hjτ : j < τ.length := by rw [hτlen]; exact List.mem_range.mp hj
      refine ia_flat_getD la 0 lo.length _ _ ?_
      rw [List.getD_eq_getElem τ 0 hjτ]
      exact hτlt _ (List.getElem_mem hjτ)

theorem fancy_mesh_lon (la lo : List ℚ) (hla : la ≠ []) (hlo : lo ≠ []) :
    fancyIdx2 (mesh_lon la lo)
        ⟨[la.length, lo.length],
          ((argsortList la).map (fun v => List.replicate lo.length v)).flatten⟩
        ⟨[la.length, lo.length], (List.replicate la.length (argsortList lo)).flatten⟩ =
      mesh_lon (sort_apply la) (sort_apply lo) := by
  rw [fancyIdx2_eval (mesh_lon la lo) la.length lo.length _ _ rfl
    (mesh_lon_flat_len la lo) (argsortList_length la) (argsortList_length lo)
    (List.length_pos.mpr hla) (List.length_pos.mpr hlo)]
  show (⟨[la.length, lo.length], ((List.range la.length).map
      (fun i => (List.range lo.length).map (fun j =>
        ((la.map (fun _ => lo)).flatten).getD
          ((argsortList la).getD i 0 * lo.length + (argsortList lo).getD j 0) 0))).flatten⟩
    : NArr ℚ) =
    ⟨[(sort_apply la).length, (sort_apply lo).length],
      ((sort_apply la).map (fun _ => sort_apply lo)).flatten⟩
  rw [sort_apply_length la, sort_apply_length lo]
  refine congrArg _ ?_
  refine congrArg _ ?_
  have hrows : la.map (fun _ => lo) = List.replicate la.length lo := List.map_const' la lo
  rw [List.map_congr_left (g := fun _ => sort_apply lo)]
  · rw [List.map_const', List.length_range, ← sort_apply_length la, List.map_const']
  · intro i hi
    rw [List.map_congr_left
      (g := fun j => lo.getD ((argsortList lo).getD j 0) 0)]
    · rw [show (fun j => lo.getD ((argsortList lo).getD j 0) 0) =
          (fun v => lo.getD v 0) ∘ (fun j => (argsortList lo).getD j 0) from rfl]
      rw [← List.map_map, ← argsortList_length lo, map_getD_range]
      rfl
    · intro j hj
      rw [hrows]
      exact ja_flat_getD lo 0 la.length lo.length _ _ rfl
        (argsortList_getD_lt la i (List.mem_range.mp hi))
        (argsortList_getD_lt lo j (List.mem_range.mp hj))

theorem mesh_lon_wrap (la lo : List ℚ) :
    (⟨(mesh_lon la lo).shape, (mesh_lon la lo).flat.map wrapLon⟩ : NArr ℚ) =
      mesh_lon la (lo.map wrapLon) := by
  show (⟨[la.length, lo.length], ((la.map (fun _ => lo)).flatten).map wrapLon⟩ : NArr ℚ) =
    ⟨[la.length, (lo.map wrapLon).length], (la.map (fun _ => lo.map wrapLon)).flatten⟩
  congr 1
  · rw [List.length_map]
  · rw [List.map_flatten, List.map_map]
    rfl

theorem normalize_mesh (la lo : List ℚ) (data : Option (NArr ℚ))
    (hla : la ≠ []) (hlo : lo ≠ []) :
    normalize_lat_lon (mesh_lat la lo) (mesh_lon la lo) data =
      .ok (mesh_lat (sort_apply la) (sort_apply (lo.map wrapLon)),
           mesh_lon (sort_apply la) (sort_apply (lo.map wrapLon)),
           data.map (fun d => fancyIdx2 d
             ⟨[la.length, lo.length],
               ((argsortList la).map (fun v => List.replicate lo.length v)).flatten⟩
             ⟨[la.length, lo.length],
               (List.replicate la.length (argsortList (lo.map wrapLon))).flatten⟩)) := by
  have hlo2 : lo.map wrapLon ≠ [] := by
    intro hcon
    exact hlo (List.map_eq_nil_iff.mp hcon)
  unfold normalize_lat_lon
  rw [mesh_lon_wrap la lo]
  dsimp only
  rw [argsort_mesh_lat_axis0 la lo]
  have hlon := argsort_mesh_lon_axis1 la (lo.map wrapLon)
  simp only [List.length_map] at hlon
  rw [hlon]
  simp only [exceptBind_ok]
  have hlat2 := fancy_mesh_lat la lo (argsortList (lo.map wrapLon))
    (sort_apply (lo.map wrapLon))
    (by rw [sort_apply_length, List.length_map])
    (by rw [argsortList_length, List.length_map])
    (by
      intro x hx
      have := argsortList_mem_lt (lo.map wrapLon) x hx
      rwa [List.length_map] at this) hla hlo
  rw [hlat2]
  have hlon2' := fancy_mesh_lon la (lo.map wrapLon) hla hlo2
  simp only [List.length_map] at hlon2'
  rw [hlon2']

theorem wrap_fix_sort_apply (lo : List ℚ) :
    (sort_apply (lo.map wrapLon)).map wrapLon = sort_apply (lo.map wrapLon) := by
  conv_rhs => rw [← List.map_id (sort_apply (lo.map wrapLon))]
  apply List.map_congr_left
  intro x hx
  rcases mem_sort_apply _ x hx with hm | h0
  · rcases List.mem_map.mp hm with ⟨y, _, hy⟩
    rw [← hy, wrapLon_idem]
    rfl
  · rw [h0, wrapLon_of_le 0 (by norm_num)]
    rfl

theorem fancy_identity (d : NArr ℚ) (h w : ℕ) (hshape : d.shape = [h, w])
    (hflat : d.flat.length = h * w) (hh : 0 < h) (hw : 0 < w) :
    fancyIdx2 d ⟨[h, w], ((List.range h).map (fun v => List.replicate w v)).flatten⟩
        ⟨[h, w], (List.replicate h (List.range w)).flatten⟩ = d := by
  rw [fancyIdx2_eval d h w (List.range h) (List.range w) hshape hflat
    (List.length_range h) (List.length_range w) hh hw]
  obtain ⟨sh, fl⟩ := d
  simp only at hshape hflat ⊢
  subst hshape
  refine congrArg _ ?_
  apply getD_ext _ _ (0 : ℚ)
  · rw [flatten_length_uniform _ w (by
      intro r hr
      rcases List.mem_map.mp hr with ⟨i, _, hi⟩
      rw [← hi, List.length_map, List.length_range]), List.length_map, List.length_range,
      hflat]
  · intro k hk
    rw [flatten_length_uniform _ w (by
      intro r hr
      rcases List.mem_map.mp hr with ⟨i, _, hi⟩
      rw [← hi, List.length_map, List.length_range]), List.length_map, List.length_range] at hk
    have hj : k % w < w := Nat.mod_lt _ hw
    have hi : k / w < h := Nat.div_lt_of_lt_mul (by rw [Nat.mul_comm] at hk; exact hk)
    have hksplit : (k / w) * w + k % w = k := by
      rw [Nat.mul_comm]
      exact Nat.div_add_mod k w
    rw [← hksplit]
    rw [flatten_getD_uniform _ w (by
      intro r hr
      rcases List.mem_map.mp hr with ⟨i, _, hi2⟩
      rw [← hi2, List.length_map, List.length_range]) 0 _ _ hj]
    rw [getD_map_range h _ _ hi, getD_map_range w _ _ hj]
    rw [List.getD_eq_getElem (List.range h) 0 (by simpa using hi), List.getElem_range,
      List.getD_eq_getElem (List.range w) 0 (by simpa using hj), List.getElem_range]

theorem normalize_lon_le (lat lon : NArr ℚ) (data : Option (NArr ℚ))
    (olat olon : NArr ℚ) (odata : Option (NArr ℚ))
    (h : normalize_lat_lon lat lon data = .ok (olat, olon, odata)) :
    ∀ x ∈ olon.flat, x ≤ 180 := by
  unfold normalize_lat_lon at h
  dsimp only at h
  cases h1 : npArgsort lat 0 with
  | error e =>
    rw [h1, exceptBind_error] at h
    exact absurd h (by simp)
  | ok ia =>
    rw [h1, exceptBind_ok] at h
    cases h2 : npArgsort (⟨lon.shape, lon.flat.map wrapLon⟩ : NArr ℚ) 1 with
    | error e =>
      rw [h2, exceptBind_error] at h
      exact absurd h (by simp)
    | ok ja =>
      rw [h2, exceptBind_ok] at h
      rw [Except.ok.injEq, Prod.mk.injEq, Prod.mk.injEq] at h
      obtain ⟨-, holon, -⟩ := h
      intro x hx
      rw [← holon] at hx
      unfold fancyIdx2 at hx
      dsimp only at hx
      rcases List.mem_flatten.mp hx with ⟨l, hl, hxl⟩
      rcases List.mem_map.mp hl with ⟨b, hb, hbl⟩
      rw [← hbl] at hxl
      rcases List.mem_map.mp hxl with ⟨t, _, hxt⟩
      rcases getD_mem_or b t 0 with hmem | hdef
      · have hx2 : x ∈ lon.flat.map wrapLon := mem_chunks _ _ b hb x (hxt ▸ hmem)
        rcases List.mem_map.mp hx2 with ⟨y, _, hy⟩
        rw [← hy]
        exact wrapLon_le_180 y
      · rw [← hxt, hdef]
        norm_num

theorem rowform_flat_len (f : ℕ → ℕ → ℚ) (h w : ℕ) :
    (((List.range h).map (fun i => (List.range w).map (fun j => f i j))).flatten).length
      = h * w := by
  rw [flatten_length_uniform _ w (by
    intro r hr
    rcases List.mem_map.mp hr with ⟨i, _, hi⟩
    rw [← hi, List.length_map, List.length_range]), List.length_map, List.length_range]

/-- C5: after one `normalize_lat_lon` no returned longitude exceeds 180 (for
every input); on a separable (outer-product mesh) lat/lon field with 2-D data
of matching shape, one application sorts the latitude axis and the wrapped
longitude axis ascending, reorders the data's two axes by the same argsort
permutations, and a second application returns the first result unchanged
(idempotence on the normalized mesh). -/
theorem C5_amended :
    (∀ (lat lon : NArr ℚ) (data : Option (NArr ℚ)) (olat olon : NArr ℚ)
       (odata : Option (NArr ℚ)),
       normalize_lat_lon lat lon data = .ok (olat, olon, odata) →
       ∀ x ∈ olon.flat, x ≤ 180) ∧
    (∀ (la lo : List ℚ) (d : NArr ℚ), la ≠ [] → lo ≠ [] →
       d.shape = [la.length, lo.length] → d.flat.length = la.length * lo.length →
       ∃ od : NArr ℚ,
         normalize_lat_lon (mesh_lat la lo) (mesh_lon la lo) (some d) =
           .ok (mesh_lat (sort_apply la) (sort_apply (lo.map wrapLon)),
                mesh_lon (sort_apply la) (sort_apply (lo.map wrapLon)), some od) ∧
         (∀ i j, i < la.length → j < lo.length →
           od.mget i j = d.mget ((argsortList la).getD i 0)
             ((argsortList (lo.map wrapLon)).getD j 0)) ∧
         normalize_lat_lon (mesh_lat (sort_apply la) (sort_apply (lo.map wrapLon)))
             (mesh_lon (sort_apply la) (sort_apply (lo.map wrapLon))) (some od) =
           .ok (mesh_lat (sort_apply la) (sort_apply (lo.map wrapLon)),
                mesh_lon (sort_apply la) (sort_apply (lo.map wrapLon)), some od)) := by
  constructor
  · exact normalize_lon_le
  · intro la lo d hla hlo hshape hflat
    have hτlen : (argsortList (lo.map wrapLon)).length = lo.length := by
      rw [argsortList_length, List.length_map]
    have hEval := fancyIdx2_eval d la.length lo.length (argsortList la)
      (argsortList (lo.map wrapLon)) hshape hflat (argsortList_length la) hτlen
      (List.length_pos.mpr hla) (List.length_pos.mpr hlo)
    refine ⟨fancyIdx2 d
      ⟨[la.length, lo.length],
        ((argsortList la).map (fun v => List.replicate lo.length v)).flatten⟩
      ⟨[la.length, lo.length],
        (List.replicate la.length (argsortList (lo.map wrapLon))).flatten⟩, ?_, ?_, ?_⟩
    · have hm := normalize_mesh la lo (some d) hla hlo
      rw [hm]
      rfl
    · intro i j hi hj
      rw [hEval]
      show (((List.range la.length).map (fun i => (List.range lo.length).map
          (fun j => d.flat.getD ((argsortList la).getD i 0 * lo.length +
            (argsortList (lo.map wrapLon)).getD j 0) 0))).flatten).getD
          (i * lo.length + j) 0 = _
      rw [flatten_getD_uniform _ lo.length (by
        intro r hr
        rcases List.mem_map.mp hr with ⟨i2, _, hi2⟩
        rw [← hi2, List.length_map, List.length_range]) 0 i j hj]
      rw [getD_map_range la.length _ _ hi, getD_map_range lo.length _ _ hj]
      show _ = d.flat.getD ((argsortList la).getD i 0 * d.shape.getD 1 0 +
        (argsortList (lo.map wrapLon)).getD j 0) 0
      rw [hshape]
      rfl
    · have hla2 : sort_apply la ≠ [] := by
        apply List.length_pos.mp
        rw [sort_apply_length]
        exact List.length_pos.mpr hla
      have hlo2 : sort_apply (lo.map wrapLon) ≠ [] := by
        apply List.length_pos.mp
        rw [sort_apply_length, List.length_map]
        exact List.length_pos.mpr hlo
      have hm2 := normalize_mesh (sort_apply la) (sort_apply (lo.map wrapLon))
        (some (fancyIdx2 d
          ⟨[la.length, lo.length],
            ((argsortList la).map (fun v => List.replicate lo.length v)).flatten⟩
          ⟨[la.length, lo.length],
            (List.replicate la.length (argsortList (lo.map wrapLon))).flatten⟩)) hla2 hlo2
      rw [wrap_fix_sort_apply lo] at hm2
      rw [sort_apply_of_sorted _ (sort_apply_sorted la)] at hm2
      rw [sort_apply_of_sorted _ (sort_apply_sorted (lo.map wrapLon))] at hm2
      rw [argsortList_of_sorted _ (sort_apply_sorted la)] at hm2
      rw [argsortList_of_sorted _ (sort_apply_sorted (lo.map wrapLon))] at hm2
      rw [sort_apply_length la, sort_apply_length (lo.map wrapLon), List.length_map] at hm2
      rw [hm2]
      rw [Option.map_some']
      rw [hEval]
      rw [fancy_identity _ la.length lo.length rfl
        (rowform_flat_len _ la.length lo.length)
        (List.length_pos.mpr hla) (List.length_pos.mpr hlo)]

theorem normalize_once_eval :
    normalize_lat_lon (⟨[2,2],[0,10,5,1]⟩ : NArr ℚ) ⟨[2,2],[1,0,0,1]⟩ none =
      .ok (⟨[2,2],[10,5,5,10]⟩, ⟨[2,2],[0,0,0,0]⟩, none) := by
  have hwrap : ([1,0,0,1] : List ℚ).map wrapLon = [1,0,0,1] := by
    simp only [List.map_cons, List.map_nil, wrapLon_of_le 1 (by norm_num),
      wrapLon_of_le 0 (by norm_num)]
  unfold normalize_lat_lon
  dsimp only
  rw [show (⟨[2,2], ([1,0,0,1] : List ℚ).map wrapLon⟩ : NArr ℚ) = ⟨[2,2],[1,0,0,1]⟩
    from by rw [hwrap]]
  decide

theorem normalize_twice_eval :
    normalize_lat_lon (⟨[2,2],[10,5,5,10]⟩ : NArr ℚ) ⟨[2,2],[0,0,0,0]⟩ none =
      .ok (⟨[2,2],[5,5,10,10]⟩, ⟨[2,2],[0,0,0,0]⟩, none) := by
  have hwrap : ([0,0,0,0] : List ℚ).map wrapLon = [0,0,0,0] := by
    simp only [List.map_cons, List.map_nil, wrapLon_of_le 0 (by norm_num)]
  unfold normalize_lat_lon
  dsimp only
  rw [show (⟨[2,2], ([0,0,0,0] : List ℚ).map wrapLon⟩ : NArr ℚ) = ⟨[2,2],[0,0,0,0]⟩
    from by rw [hwrap]]
  decide

/-- C5 counterexample: `normalize_lat_lon` is not idempotent.  On the
non-separable field lat = [[0,10],[5,1]], lon = [[1,0],[0,1]] the row and
column argsorts differ between passes, so applying the function to its own
output changes the latitude field again ([[10,5],[5,10]] becomes
[[5,5],[10,10]]). -/
theorem C5_counterexample :
    (normalize_lat_lon (⟨[2,2],[0,10,5,1]⟩ : NArr ℚ) ⟨[2,2],[1,0,0,1]⟩ none).bind
        (fun r => normalize_lat_lon r.1 r.2.1 r.2.2) ≠
      normalize_lat_lon (⟨[2,2],[0,10,5,1]⟩ : NArr ℚ) ⟨[2,2],[1,0,0,1]⟩ none := by
  rw [normalize_once_eval]
  rw [show (Except.ok ((⟨[2,2],[10,5,5,10]⟩ : NArr ℚ), (⟨[2,2],[0,0,0,0]⟩ : NArr ℚ),
      (none : Option (NArr ℚ)))).bind
      (fun r => normalize_lat_lon r.1 r.2.1 r.2.2) =
    normalize_lat_lon (⟨[2,2],[10,5,5,10]⟩ : NArr ℚ) ⟨[2,2],[0,0,0,0]⟩ none from rfl]
  rw [normalize_twice_eval]
  intro hcon
  rw [Except.ok.injEq, Prod.mk.injEq] at hcon
  have := hcon.1
  rw [NArr.mk.injEq] at this
  have h2 := this.2
  simp at h2

/-- C5 witness: the wrap bound instantiated on the counterexample run, and the
mesh clause of the amended statement instantiated on the regular 2x2 grid
lat = [50,51], lon = [10,20] with data [[1,2],[3,4]]. -/
theorem C5_witness :
    (∀ x ∈ (⟨[2,2],([0,0,0,0] : List ℚ)⟩ : NArr ℚ).flat, x ≤ 180) ∧
    (∃ od : NArr ℚ,
       normalize_lat_lon (mesh_lat ([50,51] : List ℚ) ([10,20] : List ℚ))
           (mesh_lon ([50,51] : List ℚ) ([10,20] : List ℚ))
           (some ⟨[2,2],[1,2,3,4]⟩) =
         .ok (mesh_lat (sort_apply ([50,51] : List ℚ))
                (sort_apply (([10,20] : List ℚ).map wrapLon)),
              mesh_lon (sort_apply ([50,51] : List ℚ))
                (sort_apply (([10,20] : List ℚ).map wrapLon)), some od) ∧
       (∀ i j, i < ([50,51] : List ℚ).length → j < ([10,20] : List ℚ).length →
         od.mget i j = (⟨[2,2],[1,2,3,4]⟩ : NArr ℚ).mget
           ((argsortList ([50,51] : List ℚ)).getD i 0)
           ((argsortList (([10,20] : List ℚ).map wrapLon)).getD j 0)) ∧
       normalize_lat_lon
           (mesh_lat (sort_apply ([50,51] : List ℚ))
             (sort_apply (([10,20] : List ℚ).map wrapLon)))
           (mesh_lon (sort_apply ([50,51] : List ℚ))
             (sort_apply (([10,20] : List ℚ).map wrapLon))) (some od) =
         .ok (mesh_lat (sort_apply ([50,51] : List ℚ))
                (sort_apply (([10,20] : List ℚ).map wrapLon)),
              mesh_lon (sort_apply ([50,51] : List ℚ))
                (sort_apply (([10,20] : List ℚ).map wrapLon)), some od)) :=
  ⟨C5_amended.1 ⟨[2,2],[0,10,5,1]⟩ ⟨[2,2],[1,0,0,1]⟩ none ⟨[2,2],[10,5,5,10]⟩
    ⟨[2,2],[0,0,0,0]⟩ none normalize_once_eval,
   C5_amended.2 [50,51] [10,20] ⟨[2,2],[1,2,3,4]⟩ (by simp) (by simp) rfl rfl⟩

/-- C4: on a regular lon/lat descriptor with numeric `yfirst`, `yinc`,
`ysize`, `xfirst`, `xinc`, `xsize` (sizes natural, increments nonzero) and
resolvable units, the computed lat/lon field has shape `(ysize, xsize)` with
`lat[i,j] = fy (yfirst + i*yinc)` and `lon[i,j] = fx (xfirst + j*xinc)` for the
declared unit conversions `fy`, `fx`; and the memoizing accessor `lat_lon` is
stable: a second call on the returned grid yields the same value and grid. -/
theorem C4_lonlat_latlon {α : Type} [LinearOrderedField α] [FloorRing α]
    (piA : α) (g : PGrid α) (hvar : g.variant = .lonlat)
    (yf yi sy xf xi sx : α) (ny nx : ℕ) (uy ux : String) (fy fx : α → α)
    (hyf : dictGetNum g.grid_dict "yfirst" = .ok yf)
    (hyi : dictGetNum g.grid_dict "yinc" = .ok yi)
    (hys : dictGetNum g.grid_dict "ysize" = .ok sy)
    (hxf : dictGetNum g.grid_dict "xfirst" = .ok xf)
    (hxi : dictGetNum g.grid_dict "xinc" = .ok xi)
    (hxs : dictGetNum g.grid_dict "xsize" = .ok sx)
    (hsy : sy = (ny : α)) (hsx : sx = (nx : α)) (hyi0 : yi ≠ 0) (hxi0 : xi ≠ 0)
    (hyu : dictGetStr g.grid_dict "yunits" = .ok uy)
    (hxu : dictGetStr g.grid_dict "xunits" = .ok ux)
    (hfy : unit_rule piA uy = .ok fy) (hfx : unit_rule piA ux = .ok fx) :
    (∃ LAT LON : NArr α,
      calc_lat_lon piA g = .ok (LAT, LON) ∧
      LAT.shape = [ny, nx] ∧ LON.shape = [ny, nx] ∧
      (∀ i j, i < ny → j < nx →
        LAT.mget i j = fy (yf + (i : α) * yi) ∧
        LON.mget i j = fx (xf + (j : α) * xi))) ∧
    (∀ v g2, lat_lon piA g = .ok (v, g2) → lat_lon piA g2 = .ok (v, g2)) := by
  constructor
  · have hcy := calc_single_dim_eval g.grid_dict "y" yf sy yi ny hyf hys hyi hsy hyi0
    have hcx := calc_single_dim_eval g.grid_dict "x" xf sx xi nx hxf hxs hxi hsx hxi0
    have hc := construct_dim_eval g.grid_dict _ _ hcy hcx
    have hcalc := lonlat_calc_eval piA g.grid_dict _ _ uy ux fy fx hc hyu hxu hfy hfx
    refine ⟨mesh_lat (((List.range ny).map fun i : ℕ => yf + (i : α) * yi).map fy)
        (((List.range nx).map fun i : ℕ => xf + (i : α) * xi).map fx),
      mesh_lon (((List.range ny).map fun i : ℕ => yf + (i : α) * yi).map fy)
        (((List.range nx).map fun i : ℕ => xf + (i : α) * xi).map fx), ?_, ?_, ?_, ?_⟩
    · show calc_lat_lon piA g = _
      unfold calc_lat_lon
      rw [hvar]
      exact hcalc
    · show [(((List.range ny).map fun i : ℕ => yf + (i : α) * yi).map fy).length,
        (((List.range nx).map fun i : ℕ => xf + (i : α) * xi).map fx).length] = [ny, nx]
      simp only [List.length_map, List.length_range]
    · show [(((List.range ny).map fun i : ℕ => yf + (i : α) * yi).map fy).length,
        (((List.range nx).map fun i : ℕ => xf + (i : α) * xi).map fx).length] = [ny, nx]
      simp only [List.length_map, List.length_range]
    · intro i j hi hj
      have hjlen : j < (((List.range nx).map fun i : ℕ => xf + (i : α) * xi).map fx).length := by
        simp only [List.length_map, List.length_range]
        exact hj
      constructor
      · show ((((List.range ny).map fun i : ℕ => yf + (i : α) * yi).map fy).map
            (fun v => List.replicate
              (((List.range nx).map fun i : ℕ => xf + (i : α) * xi).map fx).length v)).flatten.getD
            (i * (((List.range nx).map fun i : ℕ => xf + (i : α) * xi).map fx).length + j) 0
          = fy (yf + (i : α) * yi)
        rw [ia_flat_getD _ 0 _ i j hjlen, List.map_map]
        exact getD_map_range ny i _ hi 0
      · show ((((List.range ny).map fun i : ℕ => yf + (i : α) * yi).map fy).map
            (fun _ => ((List.range nx).map fun i : ℕ => xf + (i : α) * xi).map fx)).flatten.getD
            (i * (((List.range nx).map fun i : ℕ => xf + (i : α) * xi).map fx).length + j) 0
          = fx (xf + (j : α) * xi)
        rw [List.map_const']
        rw [ja_flat_getD _ 0 _ _ i j rfl (by
          simp only [List.length_map, List.length_range]
          exact hi) hjlen]
        rw [List.map_map]
        exact getD_map_range nx j _ hj 0
  · intro v g2 h
    unfold lat_lon at h ⊢
    cases hc : g.cache with
    | some c =>
      rw [hc] at h
      rw [Except.ok.injEq, Prod.mk.injEq] at h
      obtain ⟨hv, hg⟩ := h
      subst hv
      subst hg
      rw [hc]
    | none =>
      rw [hc] at h
      cases hcc : calc_lat_lon piA g with
      | error e =>
        rw [hcc] at h
        exact absurd h (by simp)
      | ok val =>
        rw [hcc] at h
        rw [Except.ok.injEq, Prod.mk.injEq] at h
        obtain ⟨hv, hg⟩ := h
        subst hv
        subst hg
        rfl

/-- C4 witness: the spec's regular-grid example yfirst 50, yinc 1, ysize 3,
xfirst 10, xinc 1, xsize 2, both axes in degrees. -/
theorem C4_witness :
    (∃ LAT LON : NArr ℚ,
      calc_lat_lon 0 (⟨GridVariant.lonlat,
          [("yfirst", .num 50), ("yinc", .num 1), ("ysize", .num 3),
           ("xfirst", .num 10), ("xinc", .num 1), ("xsize", .num 2),
           ("yunits", .str "degrees"), ("xunits", .str "degrees")],
          none⟩ : PGrid ℚ) = .ok (LAT, LON) ∧
      LAT.shape = [3, 2] ∧ LON.shape = [3, 2] ∧
      (∀ i j, i < 3 → j < 2 →
        LAT.mget i j = (fun x => x) (50 + (i : ℚ) * 1) ∧
        LON.mget i j = (fun x => x) (10 + (j : ℚ) * 1))) ∧
    (∀ v g2, lat_lon 0 (⟨GridVariant.lonlat,
          [("yfirst", .num 50), ("yinc", .num 1), ("ysize", .num 3),
           ("xfirst", .num 10), ("xinc", .num 1), ("xsize", .num 2),
           ("yunits", .str "degrees"), ("xunits", .str "degrees")],
          none⟩ : PGrid ℚ) = .ok (v, g2) → lat_lon 0 g2 = .ok (v, g2)) :=
  C4_lonlat_latlon 0 _ rfl 50 1 3 10 1 2 3 2 "degrees" "degrees"
    (fun x => x) (fun x => x) rfl rfl rfl rfl rfl rfl
    (by norm_num) (by norm_num) (by norm_num) (by norm_num) rfl rfl rfl rfl

theorem argmin_aux_keep (xs : List ℝ) : ∀ (bi : ℕ) (bv : ℝ) (i : ℕ),
    (∀ x ∈ xs, bv ≤ x) → argmin_aux xs bi bv i = bi := by
  induction xs with
  | nil => intro bi bv i _; rfl
  | cons x xs ih =>
    intro bi bv i h
    unfold argmin_aux
    rw [if_neg (not_lt.mpr (h x (by simp)))]
    exact ih bi bv (i + 1) (fun y hy => h y (by simp [hy]))

theorem argmin_aux_reach (xs : List ℝ) : ∀ (k bi i : ℕ) (bv : ℝ),
    k < xs.length → xs.getD k 0 < bv →
    (∀ m, m < k → xs.getD k 0 < xs.getD m 0) →
    (∀ m, m < xs.length → xs.getD k 0 ≤ xs.getD m 0) →
    argmin_aux xs bi bv i = i + k := by
  induction xs with
  | nil => intro k bi i bv hk; simp at hk
  | cons x xs ih =>
    intro k bi i bv hk hlt hearlier hle
    match k with
    | 0 =>
      simp only [List.getD_cons_zero] at hlt hle
      unfold argmin_aux
      rw [if_pos hlt]
      rw [argmin_aux_keep xs i x (i + 1) (by
        intro y hy
        rcases List.mem_iff_getElem.mp hy with ⟨m, hm, hym⟩
        have := hle (m + 1) (by simpa using hm)
        rw [List.getD_cons_succ, List.getD_eq_getElem xs 0 hm, hym] at this
        exact this)]
      omega
    | k + 1 =>
      simp only [List.getD_cons_succ] at hlt hearlier hle
      have hx : xs.getD k 0 < x := by
        have := hearlier 0 (by omega)
        simpa using this
      unfold argmin_aux
      by_cases hxbv : x < bv
      · rw [if_pos hxbv]
        rw [ih k i (i + 1) x (by simpa using hk) hx
          (fun m hm => by
            have := hearlier (m + 1) (by omega)
            simpa using this)
          (fun m hm => by
            have := hle (m + 1) (by simpa using hm)
            simpa using this)]
        omega
      · rw [if_neg hxbv]
        rw [ih k bi (i + 1) bv (by simpa using hk) hlt
          (fun m hm => by
            have := hearlier (m + 1) (by omega)
            simpa using this)
          (fun m hm => by
            have := hle (m + 1) (by simpa using hm)
            simpa using this)]
        omega

theorem argmin_np_spec (l : List ℝ) (k : ℕ) (hk : k < l.length)
    (hle : ∀ m, m < l.length → l.getD k 0 ≤ l.getD m 0)
    (hearlier : ∀ m, m < k → l.getD k 0 < l.getD m 0) :
    argmin_np l = k := by
  match l, hk, hle, hearlier with
  | x :: xs, hk2, hle2, hearlier2 =>
    show argmin_aux xs 0 x 1 = k
    match k, hk2, hle2, hearlier2 with
    | 0, _, hle3, _ =>
      apply argmin_aux_keep
      intro y hy
      rcases List.mem_iff_getElem.mp hy with ⟨m, hm, hym⟩
      have := hle3 (m + 1) (by simpa using hm)
      rw [List.getD_cons_zero, List.getD_cons_succ,
        List.getD_eq_getElem xs 0 hm, hym] at this
      exact this
    | k + 1, hk3, hle3, hearlier3 =>
      rw [argmin_aux_reach xs k 0 1 x (by simpa using hk3)
        (by
          have := hearlier3 0 (by omega)
          simpa using this)
        (fun m hm => by
          have := hearlier3 (m + 1) (by omega)
          simpa using this)
        (fun m hm => by
          have := hle3 (m + 1) (by simpa using hm)
          simpa using this)]
      omega

theorem distance_haversine_self (p : ℝ × ℝ) : distance_haversine p p = 0 := by
  unfold distance_haversine
  dsimp only
  simp [sub_self, zero_div, Real.sin_zero, Real.sqrt_zero, Real.arcsin_zero]

theorem distance_haversine_nonneg (p1 p2 : ℝ × ℝ) (_h1 : |p1.1| ≤ 90)
    (_h2 : |p2.1| ≤ 90) : 0 ≤ distance_haversine p1 p2 := by
  unfold distance_haversine deg2rad
  dsimp only
  apply mul_nonneg (by norm_num)
  apply mul_nonneg (by norm_num)
  exact Real.arcsin_nonneg.mpr (Real.sqrt_nonneg _)

theorem map_zip_getD (as bs : List ℝ) (f : ℝ × ℝ → ℝ) (m : ℕ)
    (hma : m < as.length) (hmb : m < bs.length) :
    ((as.zip bs).map f).getD m 0 = f (as.getD m 0, bs.getD m 0) := by
  have hz : m < (as.zip bs).length := by
    rw [List.length_zip]
    omega
  rw [List.getD_eq_getElem _ 0 (by simpa using hz), List.getElem_map, List.getElem_zip,
    List.getD_eq_getElem as 0 hma, List.getD_eq_getElem bs 0 hmb]

/-- C6 (amended): `nearest_point` returns the argmin of the haversine distance
with ties broken by the first occurrence in row-major order; in particular if
the grid contains the query coordinate at flat position `k`, the latitudes are
geographically valid, and no earlier point lies at haversine distance 0 from
the query (such aliases exist: longitudes congruent mod 360), then the
returned index is `k` unravelled to the field shape and the distance there is
0. -/
theorem C6_amended :
    ∀ (lat lon : NArr ℝ) (coord : ℝ × ℝ) (k : ℕ),
      lat.flat.length = lon.flat.length →
      k < lat.flat.length →
      lat.flat.getD k 0 = coord.1 → lon.flat.getD k 0 = coord.2 →
      (∀ x ∈ lat.flat, |x| ≤ 90) → |coord.1| ≤ 90 →
      (∀ m, m < k → distance_haversine coord (lat.flat.getD m 0, lon.flat.getD m 0) ≠ 0) →
      nearest_point lat lon coord = unravel_index k lat.shape ∧
      distance_haversine coord (lat.flat.getD k 0, lon.flat.getD k 0) = 0 := by
  intro lat lon coord k hlen hk hlatk hlonk hlat90 hc90 hnozero
  have hdist0 : distance_haversine coord (lat.flat.getD k 0, lon.flat.getD k 0) = 0 := by
    rw [hlatk, hlonk, Prod.mk.eta]
    exact distance_haversine_self coord
  refine ⟨?_, hdist0⟩
  unfold nearest_point
  dsimp only
  have hDlen : ((lat.flat.zip lon.flat).map (fun p => distance_haversine coord p)).length
      = lat.flat.length := by
    rw [List.length_map, List.length_zip, ← hlen, Nat.min_self]
  have hgetD : ∀ m, m < lat.flat.length →
      ((lat.flat.zip lon.flat).map (fun p => distance_haversine coord p)).getD m 0 =
        distance_haversine coord (lat.flat.getD m 0, lon.flat.getD m 0) := by
    intro m hm
    exact map_zip_getD lat.flat lon.flat _ m hm (hlen ▸ hm)
  have hnn : ∀ m, m < lat.flat.length →
      0 ≤ distance_haversine coord (lat.flat.getD m 0, lon.flat.getD m 0) := by
    intro m hm
    apply distance_haversine_nonneg coord _ hc90
    show |lat.flat.getD m 0| ≤ 90
    apply hlat90
    rw [List.getD_eq_getElem lat.flat 0 hm]
    exact List.getElem_mem hm
  rw [argmin_np_spec _ k (by rwa [hDlen])]
  · intro m hm
    rw [hDlen] at hm
    rw [hgetD k hk, hgetD m hm, hdist0]
    exact hnn m hm
  · intro m hm
    rw [hgetD k hk, hgetD m (by omega), hdist0]
    exact lt_of_le_of_ne (hnn m (by omega)) (Ne.symm (hnozero m hm))

theorem dist_wrap360 : distance_haversine ((0:ℝ), 360) ((0:ℝ), 0) = 0 := by
  unfold distance_haversine deg2rad
  dsimp only
  rw [show ((0:ℝ) * Real.pi / 180 - 0 * Real.pi / 180) / 2 = 0 by ring]
  rw [show ((0:ℝ) * Real.pi / 180 - 360 * Real.pi / 180) / 2 = -Real.pi by ring]
  rw [show (0:ℝ) * Real.pi / 180 = 0 by ring]
  simp [Real.sin_zero, Real.cos_zero, Real.sin_neg, Real.sin_pi, Real.sqrt_zero,
    Real.arcsin_zero]

/-- C6 counterexample: the 1x2 grid with points (0,0) and (0,360) contains
the query coordinate (0,360) exactly, at index [0,1]; but (0,0) lies at
haversine distance 0 from (0,360) as well (longitudes congruent mod 360), so
the argmin tie-break returns the earlier index [0,0], not the exact point's
index. -/
theorem C6_counterexample :
    ((⟨[1,2],[0,0]⟩ : NArr ℝ)).mget 0 1 = (0:ℝ) ∧
    ((⟨[1,2],[0,360]⟩ : NArr ℝ)).mget 0 1 = (360:ℝ) ∧
    nearest_point (⟨[1,2],[0,0]⟩ : NArr ℝ) ⟨[1,2],[0,360]⟩ (0, 360) = [0, 0] ∧
    ([0, 0] : List ℕ) ≠ [0, 1] := by
  refine ⟨rfl, rfl, ?_, by decide⟩
  unfold nearest_point
  dsimp only
  show unravel_index (argmin_np
    [distance_haversine ((0:ℝ), 360) ((0:ℝ), (0:ℝ)),
     distance_haversine ((0:ℝ), 360) ((0:ℝ), (360:ℝ))]) [1, 2] = [0, 0]
  rw [dist_wrap360, distance_haversine_self]
  show unravel_index (argmin_aux [(0:ℝ)] 0 0 1) [1, 2] = [0, 0]
  unfold argmin_aux
  rw [if_neg (lt_irrefl (0:ℝ))]
  rfl

/-- C6 witness: on the 1x1 grid holding exactly the point (10, 20), the
query (10, 20) returns index [0, 0] at distance 0. -/
theorem C6_witness :
    nearest_point (⟨[1,1],[10]⟩ : NArr ℝ) ⟨[1,1],[20]⟩ (10, 20) =
      unravel_index 0 [1, 1] ∧
    distance_haversine ((10:ℝ), (20:ℝ))
      ((⟨[1,1],[10]⟩ : NArr ℝ).flat.getD 0 0, (⟨[1,1],[20]⟩ : NArr ℝ).flat.getD 0 0) = 0 :=
  C6_amended ⟨[1,1],[10]⟩ ⟨[1,1],[20]⟩ (10, 20) 0 rfl (by norm_num) rfl rfl
    (by
      intro x hx
      rw [List.mem_singleton.mp hx]
      norm_num)
    (by norm_num)
    (by
      intro m hm
      exact absurd hm (Nat.not_lt_zero m))

theorem exCurvDictR_construct : construct_dim exCurvDictR = .ok ([0], [0]) := by
  have hy := calc_single_dim_eval (α := ℝ) exCurvDictR "y" 0 1 1 1 rfl rfl rfl
    (by norm_num) (by norm_num)
  have hx := calc_single_dim_eval (α := ℝ) exCurvDictR "x" 0 1 1 1 rfl rfl rfl
    (by norm_num) (by norm_num)
  refine construct_dim_eval _ _ _ ?_ ?_
  · rw [hy]
    norm_num [List.range_succ]
  · rw [hx]
    norm_num [List.range_succ]

/-- The lat/lon field of the 1×1 curvilinear example grid at `ℝ`. -/
theorem exCurvGridR_calc (piA : ℝ) :
    calc_lat_lon piA exCurvGridR = .ok (⟨[1, 1], [50]⟩, ⟨[1, 1], [10]⟩) := by
  show curv_calc_lat_lon exCurvDictR = _
  unfold curv_calc_lat_lon
  rw [exCurvDictR_construct]
  simp only [exceptBind_ok]
  rw [show dictGetArr (α := ℝ) exCurvDictR "yvals" = .ok [50] from rfl]
  simp only [exceptBind_ok]
  rw [show dictGetArr (α := ℝ) exCurvDictR "xvals" = .ok [10] from rfl]
  simp only [exceptBind_ok]
  rw [if_pos (by constructor <;> rfl)]
  rfl

/-- C10 is a code bug (contradicting the docstring's promise, grid.py:361-363,
that the result "has at least one dimension"): when the data has exactly the
grid's coordinate dimensions, `data[..., i, j]` yields a numpy scalar, the
`isinstance(nearest_data, np.ndarray)` guard at grid.py:377-378 is False, so
`np.atleast_1d` is skipped and the bare 0-dimensional scalar is returned. -/
theorem C10_code_evaluation :
    get_nearest_point Real.pi exCurvGridR exData1R (50, 10) = .ok (.scal 7) ∧
    NpVal.ndim (NpVal.scal (7 : ℝ)) = 0 := by
  refine ⟨?_, rfl⟩
  unfold get_nearest_point
  rw [exCurvGridR_calc Real.pi]
  simp only [exceptBind_ok]
  rw [if_neg (by
    intro hcon
    exact hcon rfl)]
  rfl
